import Mathlib

set_option maxHeartbeats 1000000

/-!
# Verification of FCL collision-detection core against its specification

Shallow embedding of the FCL (Flexible Collision Library) trunk sources:
* `src/include/fcl/broadphase/detail/morton.h` — Morton spatial keys,
* `src/include/fcl/object/geometry/bvh/detail/BV_splitter.h` — BVH node splitter,
* `src/trunk/fcl/src/narrowphase/narrowphase.cpp` — narrow-phase primitive tests,
* `src/include/fcl/traversal/collision/mesh_continuous_collision_traversal_node.h`
  — continuous-collision leaf test.

Real-valued quantities (`FCL_REAL`, a C++ `double`) are embedded as exact reals
(`ℝ`) or rationals (`ℚ`) wherever the algorithm is purely rational; machine
integers are embedded as `ℕ` with explicit `% 2^32` reductions where the C++
computes on `uint32`.

The file is organized as: all embedding definitions first, then the theorems.
-/

namespace FCL

/-- 3D vector over a scalar type, as `Vec3f` / `Vector3<S>` in FCL. -/
structure Vec3 (α : Type) where
  x : α
  y : α
  z : α
deriving Repr, DecidableEq

namespace Vec3

variable {α : Type}

/-- `v[i]` component access (indices `0`, `1`, `2`; out-of-range reads give `z`,
which never happens in the embedded code paths). -/
def nth (v : Vec3 α) (i : ℕ) : α :=
  match i with
  | 0 => v.x
  | 1 => v.y
  | _ => v.z

variable [CommRing α]

/-- Componentwise addition. -/
def add (a b : Vec3 α) : Vec3 α := ⟨a.x + b.x, a.y + b.y, a.z + b.z⟩

/-- Componentwise subtraction. -/
def sub (a b : Vec3 α) : Vec3 α := ⟨a.x - b.x, a.y - b.y, a.z - b.z⟩

/-- Scalar multiplication `v * c`. -/
def smul (a : Vec3 α) (c : α) : Vec3 α := ⟨a.x * c, a.y * c, a.z * c⟩

/-- Negation. -/
def neg (a : Vec3 α) : Vec3 α := ⟨-a.x, -a.y, -a.z⟩

/-- Dot product. -/
def dot (a b : Vec3 α) : α := a.x * b.x + a.y * b.y + a.z * b.z

/-- Cross product. -/
def cross (a b : Vec3 α) : Vec3 α :=
  ⟨a.y * b.z - a.z * b.y, a.z * b.x - a.x * b.z, a.x * b.y - a.y * b.x⟩

/-- Squared length (`sqrLength()`). -/
def sqrLength (a : Vec3 α) : α := dot a a

instance : Add (Vec3 α) := ⟨add⟩
instance : Sub (Vec3 α) := ⟨sub⟩
instance : Neg (Vec3 α) := ⟨neg⟩

/-- The zero vector, `Vec3f()`. -/
def zero : Vec3 α := ⟨0, 0, 0⟩

end Vec3

/-- Axis-aligned bounding box (`AABB<S>`) over exact rationals.  Accessors
modelled from the spec's BV capability list (`AABB.h` is not among the given
sources): `center`, `width`, `height`, `depth`. -/
structure AABB where
  min_ : Vec3 ℚ
  max_ : Vec3 ℚ
deriving Repr, DecidableEq

namespace AABB

/-- `center() = (min_ + max_) * 0.5`. -/
def center (b : AABB) : Vec3 ℚ := (b.min_ + b.max_).smul (1/2)

/-- `width() = max_[0] - min_[0]`. -/
def width (b : AABB) : ℚ := b.max_.x - b.min_.x

/-- `height() = max_[1] - min_[1]`. -/
def height (b : AABB) : ℚ := b.max_.y - b.min_.y

/-- `depth() = max_[2] - min_[2]`. -/
def depth (b : AABB) : ℚ := b.max_.z - b.min_.z

end AABB

/-! ## Spatial key generator (`morton.h`)

The Morton functors quantize a point's box-normalized coordinates and
interleave the per-axis bits.  Coordinates are embedded as exact rationals;
the `uint32` bit manipulations as `ℕ` with explicit `% 2^32` where the C++
works in 32-bit lanes. -/

namespace Morton

/-- `quantize(x, n) = max(min((uint32)(x*n), n-1), 0)`.  The C++ double→uint32
cast truncates toward zero; for the nonnegative inputs the functors produce it
is `Int.toNat ∘ Int.floor` (a negative `x*n` would be UB in C++; `Int.toNat`
maps it to 0, matching the clamp's intent). -/
def quantize (x : ℚ) (n : ℕ) : ℕ :=
  max (min (Int.toNat ⌊x * (n : ℚ)⌋) (n - 1)) 0

/-- The magic-mask bit-spreading applied identically to each of the three
axis values inside `morton_code`, on a 32-bit lane. -/
def mortonSpread (v : ℕ) : ℕ :=
  let v := v % 2^32
  let v := ((v ||| v <<< 16) % 2^32) &&& 0x030000FF
  let v := ((v ||| v <<< 8) % 2^32) &&& 0x0300F00F
  let v := ((v ||| v <<< 4) % 2^32) &&& 0x030C30C3
  let v := ((v ||| v <<< 2) % 2^32) &&& 0x09249249
  v

/-- The 30-bit Morton interleaving `morton_code(x, y, z)`. -/
def morton_code (x y z : ℕ) : ℕ :=
  (mortonSpread x ||| (mortonSpread y <<< 1) ||| (mortonSpread z <<< 2)) % 2^32

/-- The 60-bit Morton code `morton_code60(x, y, z)`: split each axis value into
its high and low 10-bit halves, interleave each half with `morton_code`, and
concatenate. -/
def morton_code60 (x y z : ℕ) : ℕ :=
  let lo_x := x &&& 1023
  let lo_y := y &&& 1023
  let lo_z := z &&& 1023
  let hi_x := (x % 2^32) >>> 10
  let hi_y := (y % 2^32) >>> 10
  let hi_z := (z % 2^32) >>> 10
  ((morton_code hi_x hi_y hi_z) <<< 30) ||| (morton_code lo_x lo_y lo_z)

/-- `base` member of a morton functor: the box's min corner. -/
def functorBase (bbox : AABB) : Vec3 ℚ := bbox.min_

/-- `inv` member of a morton functor: per-axis inverse extents. -/
def functorInv (bbox : AABB) : Vec3 ℚ :=
  ⟨1 / (bbox.max_.x - bbox.min_.x),
   1 / (bbox.max_.y - bbox.min_.y),
   1 / (bbox.max_.z - bbox.min_.z)⟩

/-- `morton_functor<S, uint32>::operator()`: quantize each normalized
coordinate to 10 bits and interleave. -/
def mortonFunctor30 (bbox : AABB) (point : Vec3 ℚ) : ℕ :=
  let base := functorBase bbox
  let inv := functorInv bbox
  let x := quantize ((point.x - base.x) * inv.x) 1024
  let y := quantize ((point.y - base.y) * inv.y) 1024
  let z := quantize ((point.z - base.z) * inv.z) 1024
  morton_code x y z

/-- `morton_functor<S, uint64>::operator()`: quantize each normalized
coordinate to 20 bits and interleave via `morton_code60`. -/
def mortonFunctor60 (bbox : AABB) (point : Vec3 ℚ) : ℕ :=
  let base := functorBase bbox
  let inv := functorInv bbox
  let x := quantize ((point.x - base.x) * inv.x) (2^20)
  let y := quantize ((point.y - base.y) * inv.y) (2^20)
  let z := quantize ((point.z - base.z) * inv.z) (2^20)
  morton_code60 x y z

end Morton

/-! ## BVH node splitter (`BV_splitter.h`)

The splitter computes a split rule (axis or vector, plus a scalar threshold)
from a bounding volume and a subset of primitive indices.  Scalars are
embedded as exact rationals; `std::sort` is embedded as a sorting function
(`List.insertionSort`), matching its sorted-permutation contract. -/

namespace Splitter

/-- A triangle's three vertex indices (`Triangle` in `fcl/math/triangle.h`,
not among the given sources; modelled from its use as an index triple). -/
structure Tri where
  i0 : ℕ
  i1 : ℕ
  i2 : ℕ
deriving Repr, DecidableEq

/-- `t[i]` access on a triangle's vertex indices. -/
def Tri.nth (t : Tri) (i : ℕ) : ℕ :=
  match i with
  | 0 => t.i0
  | 1 => t.i1
  | _ => t.i2

/-- `BVHModelType`: whether the geometry is a triangle mesh, a point cloud,
or not yet known (`BVH_MODEL_UNKNOWN`, the state after `clear()`). -/
inductive BVHModelType where
  | BVH_MODEL_UNKNOWN
  | BVH_MODEL_TRIANGLES
  | BVH_MODEL_POINTCLOUD
deriving Repr, DecidableEq

export BVHModelType (BVH_MODEL_UNKNOWN BVH_MODEL_TRIANGLES BVH_MODEL_POINTCLOUD)

/-- `SplitMethodType`: the three split heuristics provided by FCL. -/
inductive SplitMethodType where
  | SPLIT_METHOD_MEAN
  | SPLIT_METHOD_MEDIAN
  | SPLIT_METHOD_BV_CENTER
deriving Repr, DecidableEq

export SplitMethodType (SPLIT_METHOD_MEAN SPLIT_METHOD_MEDIAN SPLIT_METHOD_BV_CENTER)

/-- The mutable state of a `BVSplitter`: split axis, split vector, split
threshold, plus the geometry data installed by `set`.  Vertex and triangle
arrays are embedded as lists with out-of-range reads giving defaults (the
embedded code paths never read out of range). -/
structure BVSplitterState where
  split_axis : ℕ
  split_vector : Vec3 ℚ
  split_value : ℚ
  vertices : List (Vec3 ℚ)
  tri_indices : List Tri
  type : BVHModelType
  split_method : SplitMethodType
deriving Repr, DecidableEq

/-- The common longest-extent axis selection of the unspecialized
`ComputeRule{Center,Mean,Median}Impl`: `axis = 2`, overridden to `0` when
width is the (weak) maximum, else to `1` when height is. -/
def selectLongestAxis (bv : AABB) : ℕ :=
  if bv.width ≥ bv.height ∧ bv.width ≥ bv.depth then 0
  else if bv.height ≥ bv.width ∧ bv.height ≥ bv.depth then 1
  else 2

/-- Vertex array read `vertices[i]`. -/
def vertexAt (sp : BVSplitterState) (i : ℕ) : Vec3 ℚ :=
  sp.vertices.getD i Vec3.zero

/-- Triangle array read `tri_indices[i]`. -/
def triAt (sp : BVSplitterState) (i : ℕ) : Tri :=
  sp.tri_indices.getD i ⟨0, 0, 0⟩

/-- The per-primitive projection array `proj` filled by
`ComputeRuleMedianImpl::run`: triangle representatives are the unweighted
3-vertex average of the chosen coordinate, point-cloud representatives the
coordinate itself.  For any other model type neither branch runs and the
vector keeps its value-initialized zeros. -/
def medianProjections (sp : BVSplitterState) (primitive_indices : List ℕ)
    (axis : ℕ) : List ℚ :=
  match sp.type with
  | BVH_MODEL_TRIANGLES =>
      primitive_indices.map (fun i =>
        let t := triAt sp i
        ((vertexAt sp t.i0).nth axis + (vertexAt sp t.i1).nth axis
          + (vertexAt sp t.i2).nth axis) / 3)
  | BVH_MODEL_POINTCLOUD =>
      primitive_indices.map (fun i => (vertexAt sp i).nth axis)
  | BVH_MODEL_UNKNOWN => List.replicate primitive_indices.length 0

/-- The median extraction shared by `ComputeRuleMedianImpl::run` and
`computeSplitValue_median`: sort the projections, then take the middle
element (odd count) or the average of the two central elements (even
count). -/
def medianOfProjections (proj : List ℚ) (num_primitives : ℕ) : ℚ :=
  let sorted := proj.insertionSort (· ≤ ·)
  if num_primitives % 2 = 1 then
    sorted.getD ((num_primitives - 1) / 2) 0
  else
    (sorted.getD (num_primitives / 2) 0 + sorted.getD (num_primitives / 2 - 1) 0) / 2

/-- `ComputeRuleMedianImpl::run` (unspecialized, axis-aligned variant). -/
def ComputeRuleMedianImpl_run (sp : BVSplitterState) (bv : AABB)
    (primitive_indices : List ℕ) : BVSplitterState :=
  let axis := selectLongestAxis bv
  let proj := medianProjections sp primitive_indices axis
  { sp with
    split_axis := axis
    split_value := medianOfProjections proj primitive_indices.length }

/-- `ComputeRuleMeanImpl::run` (unspecialized, axis-aligned variant): sum
the representative coordinates and divide by the primitive count; for any
other model type the sum keeps its initial `0`. -/
def ComputeRuleMeanImpl_run (sp : BVSplitterState) (bv : AABB)
    (primitive_indices : List ℕ) : BVSplitterState :=
  let axis := selectLongestAxis bv
  let sum : ℚ :=
    match sp.type with
    | BVH_MODEL_TRIANGLES =>
        (primitive_indices.map (fun i =>
          let t := triAt sp i
          (vertexAt sp t.i0).nth axis + (vertexAt sp t.i1).nth axis
            + (vertexAt sp t.i2).nth axis)).sum / 3
    | BVH_MODEL_POINTCLOUD =>
        (primitive_indices.map (fun i => (vertexAt sp i).nth axis)).sum
    | BVH_MODEL_UNKNOWN => 0
  { sp with
    split_axis := axis
    split_value := sum / primitive_indices.length }

/-- `ComputeRuleCenterImpl::run` (unspecialized, axis-aligned variant):
split at the bounding volume's own center coordinate along the longest
axis. -/
def ComputeRuleCenterImpl_run (sp : BVSplitterState) (bv : AABB) : BVSplitterState :=
  let axis := selectLongestAxis bv
  { sp with
    split_axis := axis
    split_value := (bv.center).nth axis }

/-- `BVSplitter::computeRule` dispatch over the split method (axis-aligned
variant).  The C++ `default:` branch of the switch only prints
"Split method not supported" to `stderr` and falls through, leaving the
split rule unset; with the enum fully enumerated here it is unreachable. -/
def computeRule (sp : BVSplitterState) (bv : AABB)
    (primitive_indices : List ℕ) : BVSplitterState :=
  match sp.split_method with
  | SPLIT_METHOD_MEAN => ComputeRuleMeanImpl_run sp bv primitive_indices
  | SPLIT_METHOD_MEDIAN => ComputeRuleMedianImpl_run sp bv primitive_indices
  | SPLIT_METHOD_BV_CENTER => ComputeRuleCenterImpl_run sp bv

/-- The projection array filled by `computeSplitValue_median` (the oriented
variant): project triangle centroids (scaled by 3, divided after the dot
product) or points onto the split vector.  For any other model type the
vector keeps its value-initialized zeros. -/
def medianProjectionsVec (type : BVHModelType) (vertices : List (Vec3 ℚ))
    (triangles : List Tri) (primitive_indices : List ℕ)
    (split_vector : Vec3 ℚ) : List ℚ :=
  match type with
  | BVH_MODEL_TRIANGLES =>
      primitive_indices.map (fun i =>
        let t := triangles.getD i ⟨0, 0, 0⟩
        let p1 := vertices.getD t.i0 Vec3.zero
        let p2 := vertices.getD t.i1 Vec3.zero
        let p3 := vertices.getD t.i2 Vec3.zero
        let centroid3 : Vec3 ℚ := ⟨p1.x + p2.x + p3.x, p1.y + p2.y + p3.y,
                                   p1.z + p2.z + p3.z⟩
        (centroid3.dot split_vector) / 3)
  | BVH_MODEL_POINTCLOUD =>
      primitive_indices.map (fun i =>
        (vertices.getD i Vec3.zero).dot split_vector)
  | BVH_MODEL_UNKNOWN => List.replicate primitive_indices.length 0

/-- `computeSplitValue_median` (oriented variant): sort the projections onto
the split vector and take the middle element or central average. -/
def computeSplitValue_median (type : BVHModelType) (vertices : List (Vec3 ℚ))
    (triangles : List Tri) (primitive_indices : List ℕ)
    (split_vector : Vec3 ℚ) : ℚ :=
  medianOfProjections
    (medianProjectionsVec type vertices triangles primitive_indices split_vector)
    primitive_indices.length

/-- Balance of a threshold `v` over a projection list: the number of
projections `≤ v` and the number `> v` differ by at most 1. -/
def balancedAt (proj : List ℚ) (v : ℚ) : Prop :=
  ((proj.countP (fun t => decide (t ≤ v)) : ℤ)
    - (proj.countP (fun t => decide (v < t)) : ℤ)).natAbs ≤ 1

/-- Oriented bounding box.  Modelled from the spec: the `OBB` class itself is
not among the given sources; the spec's BV capability list gives it an
orientation frame (`axis`, three orthonormal columns), a center (`To`,
returned by `center()`), and extents.  Only the frame and center are read by
the splitter. -/
structure OBB where
  axisCol0 : Vec3 ℚ
  axisCol1 : Vec3 ℚ
  axisCol2 : Vec3 ℚ
  To : Vec3 ℚ
deriving Repr, DecidableEq

/-- `OBB::center()`, the center point `To`. -/
def OBB.center (bv : OBB) : Vec3 ℚ := bv.To

/-- `computeSplitVector` (generic implementation): the split vector is the
first column of the volume's orientation frame, `bv.axis.col(0)`. -/
def computeSplitVector (bv : OBB) : Vec3 ℚ := bv.axisCol0

/-- `computeSplitValue_bvcenter`: read the volume's center and take its
first coordinate, `split_value = center[0]`. -/
def computeSplitValue_bvcenter (bv : OBB) : ℚ := (bv.center).nth 0

/-- `ComputeRuleCenterImpl<S, OBB<S>>::run`: install the split vector and the
bv-center split value. -/
def ComputeRuleCenterImpl_OBB_run (sp : BVSplitterState) (bv : OBB) : BVSplitterState :=
  { sp with
    split_vector := computeSplitVector bv
    split_value := computeSplitValue_bvcenter bv }

end Splitter

/-! ## Narrow-phase primitive tests (`narrowphase.cpp`)

`FCL_REAL` (a C++ `double`) is embedded as `ℝ` with exact arithmetic;
`length()` is `Real.sqrt` of the squared length.  Optional output pointers
are embedded as `Option` results: `none` when the routine does not write the
output. -/

namespace NarrowPhase

/-- 3×3 matrix (`Matrix3f`) stored as three row vectors. -/
structure Mat3 (α : Type) where
  r0 : Vec3 α
  r1 : Vec3 α
  r2 : Vec3 α
deriving Repr, DecidableEq

namespace Mat3

variable {α : Type} [CommRing α]

/-- Row access `R(i, ·)`. -/
def row (M : Mat3 α) (i : ℕ) : Vec3 α :=
  match i with
  | 0 => M.r0
  | 1 => M.r1
  | _ => M.r2

/-- Entry access `R(i, j)`. -/
def entry (M : Mat3 α) (i j : ℕ) : α := (M.row i).nth j

/-- `getColumn(j)`. -/
def getColumn (M : Mat3 α) (j : ℕ) : Vec3 α :=
  ⟨M.r0.nth j, M.r1.nth j, M.r2.nth j⟩

/-- Matrix–vector product `M * v`. -/
def mulVec (M : Mat3 α) (v : Vec3 α) : Vec3 α :=
  ⟨M.r0.dot v, M.r1.dot v, M.r2.dot v⟩

/-- `M.transposeTimes(v) = Mᵀ v`. -/
def transposeTimesVec (M : Mat3 α) (v : Vec3 α) : Vec3 α :=
  ⟨(M.getColumn 0).dot v, (M.getColumn 1).dot v, (M.getColumn 2).dot v⟩

/-- `M.transposeTimes(N) = Mᵀ N`. -/
def transposeTimesMat (M N : Mat3 α) : Mat3 α :=
  ⟨⟨(M.getColumn 0).dot (N.getColumn 0), (M.getColumn 0).dot (N.getColumn 1),
    (M.getColumn 0).dot (N.getColumn 2)⟩,
   ⟨(M.getColumn 1).dot (N.getColumn 0), (M.getColumn 1).dot (N.getColumn 1),
    (M.getColumn 1).dot (N.getColumn 2)⟩,
   ⟨(M.getColumn 2).dot (N.getColumn 0), (M.getColumn 2).dot (N.getColumn 1),
    (M.getColumn 2).dot (N.getColumn 2)⟩⟩

/-- `M.dotX(v)`: row 0 dotted with `v`. -/
def dotX (M : Mat3 α) (v : Vec3 α) : α := M.r0.dot v

/-- `M.dotY(v)`: row 1 dotted with `v`. -/
def dotY (M : Mat3 α) (v : Vec3 α) : α := M.r1.dot v

/-- `M.dotZ(v)`: row 2 dotted with `v`. -/
def dotZ (M : Mat3 α) (v : Vec3 α) : α := M.r2.dot v

/-- `M.transposeDotX(v)`: column 0 dotted with `v`. -/
def transposeDotX (M : Mat3 α) (v : Vec3 α) : α := (M.getColumn 0).dot v

/-- `M.transposeDotY(v)`: column 1 dotted with `v`. -/
def transposeDotY (M : Mat3 α) (v : Vec3 α) : α := (M.getColumn 1).dot v

/-- `M.transposeDotZ(v)`: column 2 dotted with `v`. -/
def transposeDotZ (M : Mat3 α) (v : Vec3 α) : α := (M.getColumn 2).dot v

/-- `M.transposeDot(j, v)`: column `j` dotted with `v`. -/
def transposeDot (M : Mat3 α) (j : ℕ) (v : Vec3 α) : α := (M.getColumn j).dot v

/-- The identity matrix. -/
def identity : Mat3 α := ⟨⟨1, 0, 0⟩, ⟨0, 1, 0⟩, ⟨0, 0, 1⟩⟩

end Mat3

/-- Entrywise absolute value `abs(M)` over a linearly ordered field. -/
def Mat3.absMat (M : Mat3 ℝ) : Mat3 ℝ :=
  ⟨⟨|M.r0.x|, |M.r0.y|, |M.r0.z|⟩,
   ⟨|M.r1.x|, |M.r1.y|, |M.r1.z|⟩,
   ⟨|M.r2.x|, |M.r2.y|, |M.r2.z|⟩⟩

/-- Entrywise addition of a scalar, `Q += fudge2`. -/
def Mat3.addScalar (M : Mat3 ℝ) (c : ℝ) : Mat3 ℝ :=
  ⟨⟨M.r0.x + c, M.r0.y + c, M.r0.z + c⟩,
   ⟨M.r1.x + c, M.r1.y + c, M.r1.z + c⟩,
   ⟨M.r2.x + c, M.r2.y + c, M.r2.z + c⟩⟩

/-- `v.length() = sqrt(v ⋅ v)`. -/
noncomputable def Vec3.length (v : Vec3 ℝ) : ℝ := Real.sqrt (v.dot v)

/-- Vector–scalar division `v / c`. -/
noncomputable def Vec3.divS (v : Vec3 ℝ) (c : ℝ) : Vec3 ℝ := ⟨v.x / c, v.y / c, v.z / c⟩

/-- The free function `normalize(v)` of FCL's vector library (not among the
given sources; modelled from the spec as `v / length(v)`, with the zero
vector left unchanged). -/
noncomputable def Vec3.normalized (v : Vec3 ℝ) : Vec3 ℝ :=
  if Vec3.length v > 0 then Vec3.divS v (Vec3.length v) else v

/-- Rigid transform (`SimpleTransform`): rotation and translation. -/
structure SimpleTransform where
  R : Mat3 ℝ
  T : Vec3 ℝ

/-- `tf.transform(v) = R v + T`. -/
def SimpleTransform.transform (tf : SimpleTransform) (v : Vec3 ℝ) : Vec3 ℝ :=
  tf.R.mulVec v + tf.T

/-- `tf.getTranslation()`. -/
def SimpleTransform.getTranslation (tf : SimpleTransform) : Vec3 ℝ := tf.T

/-- `tf.getRotation()`. -/
def SimpleTransform.getRotation (tf : SimpleTransform) : Mat3 ℝ := tf.R

/-- A transform with identity rotation placing the shape at `t`. -/
def SimpleTransform.at (t : Vec3 ℝ) : SimpleTransform := ⟨Mat3.identity, t⟩

/-- Sphere shape: a radius. -/
structure Sphere where
  radius : ℝ

/-- Box shape: full side lengths. -/
structure Box where
  side : Vec3 ℝ

/-- The three optional outputs of an intersect routine: `none` models a null
output pointer / an output the routine did not write. -/
structure IntersectOutputs where
  contact_points : Option (Vec3 ℝ)
  penetration_depth : Option ℝ
  normal : Option (Vec3 ℝ)

/-- `sphereSphereIntersect`: intersect iff the center distance does not
exceed the sum of radii; on intersection write depth, normal (zero-length
guarded) and the contact point `c1 + diff * 0.5`. -/
noncomputable def sphereSphereIntersect (s1 : Sphere) (tf1 : SimpleTransform)
    (s2 : Sphere) (tf2 : SimpleTransform) : Bool × IntersectOutputs :=
  let diff := tf1.transform Vec3.zero - tf2.transform Vec3.zero
  let len := Vec3.length diff
  if len > s1.radius + s2.radius then
    (false, ⟨none, none, none⟩)
  else
    (true,
     ⟨some (tf1.transform Vec3.zero + diff.smul (1/2)),
      some (s1.radius + s2.radius - len),
      some (if len > 0 then Vec3.divS diff len else diff)⟩)

/-- `sphereSphereDistance`: write the signed separation and report `true`
when disjoint; write the sentinel `-1` and report `false` otherwise. -/
noncomputable def sphereSphereDistance (s1 : Sphere) (tf1 : SimpleTransform)
    (s2 : Sphere) (tf2 : SimpleTransform) : Bool × ℝ :=
  let diff := tf1.transform Vec3.zero - tf2.transform Vec3.zero
  let len := Vec3.length diff
  if len > s1.radius + s2.radius then
    (true, len - (s1.radius + s2.radius))
  else
    (false, -1)

/-- `std::numeric_limits<double>::epsilon()`, exactly `2^-52`. -/
noncomputable def DBL_EPSILON : ℝ := 2^(-52 : ℤ)

/-- `segmentSqrDistance(from, to, p)`: squared distance from `p` to the
segment, together with the nearest point on the segment (the `nearest`
output parameter). -/
noncomputable def segmentSqrDistance (fromv tov p : Vec3 ℝ) : ℝ × Vec3 ℝ :=
  let diff := p - fromv
  let v := tov - fromv
  let t := v.dot diff
  if t > 0 then
    let dotVV := v.dot v
    if t < dotVV then
      let t := t / dotVV
      let diff := diff - v.smul t
      (diff.dot diff, fromv + v.smul t)
    else
      let diff := diff - v
      (diff.dot diff, fromv + v.smul 1)
  else
    (diff.dot diff, fromv + v.smul 0)

/-- `projectInTriangle(p1, p2, p3, normal, p)`: edge-normal sign-consistency
test for whether p's projection lies in the triangle. -/
noncomputable def projectInTriangle (p1 p2 p3 normal p : Vec3 ℝ) : Bool :=
  let edge1 := p2 - p1
  let edge2 := p3 - p2
  let edge3 := p1 - p3
  let p1_to_p := p - p1
  let p2_to_p := p - p2
  let p3_to_p := p - p3
  let edge1_normal := edge1.cross normal
  let edge2_normal := edge2.cross normal
  let edge3_normal := edge3.cross normal
  let r1 := edge1_normal.dot p1_to_p
  let r2 := edge2_normal.dot p2_to_p
  let r3 := edge3_normal.dot p3_to_p
  if (r1 > 0 ∧ r2 > 0 ∧ r3 > 0) ∨ (r1 ≤ 0 ∧ r2 ≤ 0 ∧ r3 ≤ 0) then true else false

/-- The normalized triangle plane normal `(P2-P1) × (P3-P1)` of
`sphereTriangleIntersect`. -/
noncomputable def triNormal0 (P1 P2 P3 : Vec3 ℝ) : Vec3 ℝ :=
  Vec3.normalized ((P2 - P1).cross (P3 - P1))

/-- The sign-adjusted plane distance and normal of `sphereTriangleIntersect`:
flip both when the center lies on the negative side of the plane. -/
noncomputable def sphereTriPlaneDistAndNormal (center P1 P2 P3 : Vec3 ℝ) :
    ℝ × Vec3 ℝ :=
  let normal := triNormal0 P1 P2 P3
  let distance_from_plane := (center - P1).dot normal
  if distance_from_plane < 0 then (-distance_from_plane, -normal)
  else (distance_from_plane, normal)

/-- The edge-fallback contact search of `sphereTriangleIntersect`: test the
three edges in order 1-2, 2-3, 3-1 against the padded squared radius; each
qualifying edge sets `has_contact` and *overwrites* `contact_point` with its
nearest point. -/
noncomputable def sphereTriangleEdgeContact (radius_with_threshold : ℝ)
    (P1 P2 P3 center : Vec3 ℝ) : Option (Vec3 ℝ) :=
  let contact_capsule_radius_sqr := radius_with_threshold * radius_with_threshold
  let e1 := segmentSqrDistance P1 P2 center
  let c1 : Option (Vec3 ℝ) :=
    if e1.1 < contact_capsule_radius_sqr then some e1.2 else none
  let e2 := segmentSqrDistance P2 P3 center
  let c2 : Option (Vec3 ℝ) :=
    if e2.1 < contact_capsule_radius_sqr then some e2.2 else c1
  let e3 := segmentSqrDistance P3 P1 center
  let c3 : Option (Vec3 ℝ) :=
    if e3.1 < contact_capsule_radius_sqr then some e3.2 else c2
  c3

/-- `sphereTriangleIntersect`.  Note that the C++ calls
`projectInTriangle(P1, P2, P3, center, normal)` against the declaration
`projectInTriangle(p1, p2, p3, normal, p)`, so `center` is passed as the
`normal` parameter and `normal` as the point; the embedding reproduces the
call as written. -/
noncomputable def sphereTriangleIntersect (s : Sphere) (tf : SimpleTransform)
    (P1 P2 P3 : Vec3 ℝ) : Bool × IntersectOutputs :=
  let center := tf.getTranslation
  let radius := s.radius
  let radius_with_threshold := radius + DBL_EPSILON
  let pd := sphereTriPlaneDistAndNormal center P1 P2 P3
  let distance_from_plane := pd.1
  let normal := pd.2
  let is_inside_contact_plane := distance_from_plane < radius_with_threshold
  let contact : Option (Vec3 ℝ) :=
    if is_inside_contact_plane then
      if projectInTriangle P1 P2 P3 center normal then
        some (center - normal.smul distance_from_plane)
      else
        sphereTriangleEdgeContact radius_with_threshold P1 P2 P3 center
    else none
  match contact with
  | none => (false, ⟨none, none, none⟩)
  | some contact_point =>
      let contact_to_center := center - contact_point
      let distance_sqr := contact_to_center.dot contact_to_center
      if distance_sqr < radius_with_threshold * radius_with_threshold then
        if distance_sqr > 0 then
          let distance := Real.sqrt distance_sqr
          (true, ⟨some contact_point, some (-(radius - distance)),
                  some (Vec3.normalized contact_to_center)⟩)
        else
          (true, ⟨some contact_point, some (-radius), some normal⟩)
      else
        (false, ⟨none, none, none⟩)

/-! ### Box–box separating-axis test (`boxBox2`, `boxBoxIntersect`)

`boxBox2` is embedded with its three phases: the 15-axis scan with early
exits (as a list of state-transition steps run in order, an early exit being
an `Except` error), the edge-contact path, and the face-clipping path. -/

/-- A contact produced by `boxBox2` (`struct ContactPoint`). -/
structure ContactPoint where
  normal : Vec3 ℝ
  point : Vec3 ℝ
  depth : ℝ

/-- `std::numeric_limits<double>::max()`, exactly `(2 - 2^-52) * 2^1023`. -/
noncomputable def FCL_REAL_MAX : ℝ := (2 - 2^(-52 : ℤ)) * 2^1023

/-- The multiplicative bias toward face axes, `fudge_factor = 1.05`. -/
noncomputable def fudge_factor : ℝ := 105/100

/-- The additive padding of the absolute rotation, `fudge2 = 1.0e-6`. -/
noncomputable def fudge2 : ℝ := 1/1000000

/-- The mutable locals of the 15-axis scan in `boxBox2`: the largest
(least negative) separation `s` seen so far, the recorded column id,
normal-inversion flag, axis code, and the edge-axis normal `normalC`
(`Vec3f` default-initializes to zero). -/
structure AxisState where
  s : ℝ
  best_col_id : ℤ
  invert_normal : Bool
  code : ℕ
  normalC : Vec3 ℝ

/-- The scan state before the first axis test: `s = -DBL_MAX`,
`best_col_id = -1`, `invert_normal = 0`, `code = 0`. -/
noncomputable def initAxisState : AxisState :=
  ⟨-FCL_REAL_MAX, -1, false, 0, Vec3.zero⟩

/-- One face-axis block of the scan for the first box's axes (codes 1–3):
early exit on positive separation, otherwise record the axis when its
separation beats the running best, setting the inversion flag from the sign
of the projected center offset. -/
noncomputable def faceStepA (tmp s2 : ℝ) (col : ℤ) (codek : ℕ)
    (st : AxisState) : Except Unit AxisState :=
  if s2 > 0 then .error ()
  else .ok (if s2 > st.s then
    { st with
      s := s2
      best_col_id := col
      invert_normal := decide (tmp < 0)
      code := codek }
  else st)

/-- One face-axis block for the second box's axes (codes 4–6): as
`faceStepA` but, as in the source, without touching the inversion flag. -/
noncomputable def faceStepB (tmp s2 : ℝ) (col : ℤ) (codek : ℕ)
    (st : AxisState) : Except Unit AxisState :=
  if s2 > 0 then .error ()
  else .ok (if s2 > st.s then
    { st with s := s2, best_col_id := col, code := codek }
  else st)

/-- One edge-cross-axis block (codes 7–15): early exit when the (fudge2-
padded) separation exceeds machine epsilon; otherwise normalize by the axis
length when it is non-degenerate and record the axis when the normalized
separation beats the running best by the face-bias factor. -/
noncomputable def edgeStep (tmp s2 : ℝ) (n : Vec3 ℝ) (codek : ℕ)
    (st : AxisState) : Except Unit AxisState :=
  if s2 > DBL_EPSILON then .error ()
  else .ok (
    let l := Vec3.length n
    if l > DBL_EPSILON then
      if s2 / l * fudge_factor > st.s then
        { st with
          s := s2 / l
          best_col_id := 0
          normalC := Vec3.divS n l
          invert_normal := decide (tmp < 0)
          code := codek }
      else st
    else st)

/-- Run the axis-test blocks in order, propagating an early exit. -/
noncomputable def runSteps (st : AxisState) :
    List (AxisState → Except Unit AxisState) → Except Unit AxisState
  | [] => .ok st
  | f :: fs =>
      match f st with
      | .error e => .error e
      | .ok st' => runSteps st' fs

/-- The quantities `boxBox2` derives from its inputs before the scan:
`p = T2 - T1`, `pp = R1ᵀ p`, the half extents `A`, `B`, the relative
rotation `R = R1ᵀ R2` and its entrywise absolute value `Q`. -/
noncomputable def boxBoxPrelude (side1 : Vec3 ℝ) (R1 : Mat3 ℝ) (T1 : Vec3 ℝ)
    (side2 : Vec3 ℝ) (R2 : Mat3 ℝ) (T2 : Vec3 ℝ) :
    Vec3 ℝ × Vec3 ℝ × Vec3 ℝ × Vec3 ℝ × Mat3 ℝ × Mat3 ℝ :=
  let p := T2 - T1
  let pp := R1.transposeTimesVec p
  let A := side1.smul (1/2)
  let B := side2.smul (1/2)
  let R := R1.transposeTimesMat R2
  let Q := R.absMat
  (p, pp, A, B, R, Q)

/-- The 15 axis-test blocks of `boxBox2`, in source order: the two boxes'
face axes (codes 1–6, using the unpadded `Q`), then the nine edge cross
products (codes 7–15, using `Q` padded by `fudge2`). -/
noncomputable def boxBox2Steps (p pp A B : Vec3 ℝ) (R2 R Q Qf : Mat3 ℝ) :
    List (AxisState → Except Unit AxisState) :=
  [faceStepA pp.x (|pp.x| - (Q.dotX B + A.x)) 0 1,
   faceStepA pp.y (|pp.y| - (Q.dotY B + A.y)) 1 2,
   faceStepA pp.z (|pp.z| - (Q.dotZ B + A.z)) 2 3,
   faceStepB (R2.transposeDotX p) (|R2.transposeDotX p| - (Q.transposeDotX A + B.x)) 0 4,
   faceStepB (R2.transposeDotY p) (|R2.transposeDotY p| - (Q.transposeDotY A + B.y)) 1 5,
   faceStepB (R2.transposeDotZ p) (|R2.transposeDotZ p| - (Q.transposeDotZ A + B.z)) 2 6,
   edgeStep (pp.z * R.entry 1 0 - pp.y * R.entry 2 0)
     (|pp.z * R.entry 1 0 - pp.y * R.entry 2 0|
       - (A.y * Qf.entry 2 0 + A.z * Qf.entry 1 0
          + B.y * Qf.entry 0 2 + B.z * Qf.entry 0 1))
     ⟨0, -(R.entry 2 0), R.entry 1 0⟩ 7,
   edgeStep (pp.z * R.entry 1 1 - pp.y * R.entry 2 1)
     (|pp.z * R.entry 1 1 - pp.y * R.entry 2 1|
       - (A.y * Qf.entry 2 1 + A.z * Qf.entry 1 1
          + B.x * Qf.entry 0 2 + B.z * Qf.entry 0 0))
     ⟨0, -(R.entry 2 1), R.entry 1 1⟩ 8,
   edgeStep (pp.z * R.entry 1 2 - pp.y * R.entry 2 2)
     (|pp.z * R.entry 1 2 - pp.y * R.entry 2 2|
       - (A.y * Qf.entry 2 2 + A.z * Qf.entry 1 2
          + B.x * Qf.entry 0 1 + B.y * Qf.entry 0 0))
     ⟨0, -(R.entry 2 2), R.entry 1 2⟩ 9,
   edgeStep (pp.x * R.entry 2 0 - pp.z * R.entry 0 0)
     (|pp.x * R.entry 2 0 - pp.z * R.entry 0 0|
       - (A.x * Qf.entry 2 0 + A.z * Qf.entry 0 0
          + B.y * Qf.entry 1 2 + B.z * Qf.entry 1 1))
     ⟨R.entry 2 0, 0, -(R.entry 0 0)⟩ 10,
   edgeStep (pp.x * R.entry 2 1 - pp.z * R.entry 0 1)
     (|pp.x * R.entry 2 1 - pp.z * R.entry 0 1|
       - (A.x * Qf.entry 2 1 + A.z * Qf.entry 0 1
          + B.x * Qf.entry 1 2 + B.z * Qf.entry 1 0))
     ⟨R.entry 2 1, 0, -(R.entry 0 1)⟩ 11,
   edgeStep (pp.x * R.entry 2 2 - pp.z * R.entry 0 2)
     (|pp.x * R.entry 2 2 - pp.z * R.entry 0 2|
       - (A.x * Qf.entry 2 2 + A.z * Qf.entry 0 2
          + B.x * Qf.entry 1 1 + B.y * Qf.entry 1 0))
     ⟨R.entry 2 2, 0, -(R.entry 0 2)⟩ 12,
   edgeStep (pp.y * R.entry 0 0 - pp.x * R.entry 1 0)
     (|pp.y * R.entry 0 0 - pp.x * R.entry 1 0|
       - (A.x * Qf.entry 1 0 + A.y * Qf.entry 0 0
          + B.y * Qf.entry 2 2 + B.z * Qf.entry 2 1))
     ⟨-(R.entry 1 0), R.entry 0 0, 0⟩ 13,
   edgeStep (pp.y * R.entry 0 1 - pp.x * R.entry 1 1)
     (|pp.y * R.entry 0 1 - pp.x * R.entry 1 1|
       - (A.x * Qf.entry 1 1 + A.y * Qf.entry 0 1
          + B.x * Qf.entry 2 2 + B.z * Qf.entry 2 0))
     ⟨-(R.entry 1 1), R.entry 0 1, 0⟩ 14,
   edgeStep (pp.y * R.entry 0 2 - pp.x * R.entry 1 2)
     (|pp.y * R.entry 0 2 - pp.x * R.entry 1 2|
       - (A.x * Qf.entry 1 2 + A.y * Qf.entry 0 2
          + B.x * Qf.entry 2 1 + B.y * Qf.entry 2 0))
     ⟨-(R.entry 1 2), R.entry 0 2, 0⟩ 15]

/-- `lineClosestApproach`: the parameters of the closest points of two
lines, clamped to `(0,0)` for a near-parallel (small determinant) system. -/
noncomputable def lineClosestApproach (pa ua pb ub : Vec3 ℝ) : ℝ × ℝ :=
  let p := pb - pa
  let uaub := ua.dot ub
  let q1 := ua.dot p
  let q2 := -(ub.dot p)
  let d := 1 - uaub * uaub
  if d ≤ (1/10000 : ℝ) then (0, 0)
  else ((q1 + uaub * q2) / d, (uaub * q1 + q2) / d)

/-- Coordinate `dir` (0 = x, 1 = y) of a 2D point. -/
noncomputable def coord2 (pt : ℝ × ℝ) (dir : ℕ) : ℝ :=
  if dir = 0 then pt.1 else pt.2

/-- Build a 2D point from its `dir` coordinate and the other coordinate. -/
noncomputable def mkPoint2 (dir : ℕ) (valDir valOther : ℝ) : ℝ × ℝ :=
  if dir = 0 then (valDir, valOther) else (valOther, valDir)

/-- The points emitted for one polygon edge `pq → nextq` while chopping
along the line `xy[dir] = sign * h[dir]` in `intersectRectQuad2`: the start
point when inside, then the crossing point when the edge crosses the line. -/
noncomputable def chopEmit (dir : ℕ) (sign hdir : ℝ) (pq nextq : ℝ × ℝ) :
    List (ℝ × ℝ) :=
  (if sign * coord2 pq dir < hdir then [pq] else [])
  ++ (if decide (sign * coord2 pq dir < hdir)
        ≠ decide (sign * coord2 nextq dir < hdir) then
        [mkPoint2 dir (sign * hdir)
          (coord2 pq (1-dir) + (coord2 nextq (1-dir) - coord2 pq (1-dir))
            / (coord2 nextq dir - coord2 pq dir) * (sign * hdir - coord2 pq dir))]
      else [])

/-- One chopping pass of `intersectRectQuad2` over all edges of `q`
(cyclically closed). -/
noncomputable def chopPass (dir : ℕ) (sign hdir : ℝ) (q : List (ℝ × ℝ)) :
    List (ℝ × ℝ) :=
  ((q.zip (q.rotate 1)).map (fun pr => chopEmit dir sign hdir pr.1 pr.2)).flatten

/-- `intersectRectQuad2`: clip the quadrilateral `p` against the rectangle
`(±h.1, ±h.2)` by four half-plane chops; the source's 8-point output buffer
aborts the remaining passes (`goto done`) as soon as a pass accumulates 8
points. -/
noncomputable def intersectRectQuad2 (h : ℝ × ℝ) (p : List (ℝ × ℝ)) :
    List (ℝ × ℝ) :=
  let q1 := chopPass 0 (-1) h.1 p
  if 8 ≤ q1.length then q1.take 8 else
  let q2 := chopPass 0 1 h.1 q1
  if 8 ≤ q2.length then q2.take 8 else
  let q3 := chopPass 1 (-1) h.2 q2
  if 8 ≤ q3.length then q3.take 8 else
  (chopPass 1 1 h.2 q3).take 8

/-- Two-argument arctangent `atan2(y, x)`, via the complex argument. -/
noncomputable def atan2 (y x : ℝ) : ℝ := Complex.arg ⟨x, y⟩

/-- The polygon centroid computed by `cullPoints2`: the point itself for 1
point, the midpoint for 2, and the signed-area-weighted centroid otherwise
(with the degenerate-area fallback constant `1e18`). -/
noncomputable def cullCentroid (p : List (ℝ × ℝ)) : ℝ × ℝ :=
  let n := p.length
  if n = 1 then p.getD 0 (0, 0)
  else if n = 2 then
    (((p.getD 0 (0, 0)).1 + (p.getD 1 (0, 0)).1) / 2,
     ((p.getD 0 (0, 0)).2 + (p.getD 1 (0, 0)).2) / 2)
  else
    let terms := (List.range (n - 1)).map (fun i =>
      let pi := p.getD i (0, 0)
      let pi1 := p.getD (i + 1) (0, 0)
      (pi.1 * pi1.2 - pi1.1 * pi.2, pi, pi1))
    let a0 := (terms.map (fun t => t.1)).sum
    let cx0 := (terms.map (fun t => t.1 * (t.2.1.1 + t.2.2.1))).sum
    let cy0 := (terms.map (fun t => t.1 * (t.2.1.2 + t.2.2.2))).sum
    let pl := p.getD (n - 1) (0, 0)
    let p0 := p.getD 0 (0, 0)
    let q := pl.1 * p0.2 - p0.1 * pl.2
    let a := if |a0 + q| > DBL_EPSILON then 1 / (3 * (a0 + q)) else (10^18 : ℝ)
    (a * (cx0 + q * (pl.1 + p0.1)), a * (cy0 + q * (pl.2 + p0.2)))

/-- `cullPoints2(n, p, m, i0)`: pick `m` point indices with near-uniform
angular spread around the centroid, starting from `i0`; the greedy scan's
default candidate is `i0` itself (the source's `*iret = i0` fallback). -/
noncomputable def cullPoints2 (p : List (ℝ × ℝ)) (m : ℕ) (i0 : ℕ) : List ℕ :=
  let n := p.length
  let c := cullCentroid p
  let A := p.map (fun pt => atan2 (pt.2 - c.2) (pt.1 - c.1))
  let pick := fun (avail : List Bool) (a : ℝ) =>
    (List.range n).foldl
      (fun (acc : ℕ × ℝ) i =>
        if avail.getD i false then
          let diff0 := |A.getD i 0 - a|
          let diff := if diff0 > Real.pi then 2 * Real.pi - diff0 else diff0
          if diff < acc.2 then (i, diff) else acc
        else acc)
      (i0, (10^9 : ℝ))
  let step := fun (st : List Bool × List ℕ) (j0 : ℕ) =>
    let j := j0 + 1
    let a0 := j * (2 * Real.pi / m) + A.getD i0 0
    let a := if a0 > Real.pi then a0 - 2 * Real.pi else a0
    let chosen := (pick st.1 a).1
    (st.1.set chosen false, st.2 ++ [chosen])
  ((List.range (m - 1)).foldl step
    ((List.range n).map (fun i => decide (i ≠ i0)), [i0])).2

/-- The result of `boxBox2`: the returned contact count, `*return_code`,
the `normal` and `*depth` outputs (written only when the boxes are found
interpenetrating) and the appended contacts. -/
structure BoxBox2Result where
  ret : ℕ
  return_code : ℕ
  normal : Option (Vec3 ℝ)
  depth : Option ℝ
  contacts : List ContactPoint

/-- The all-zero result of the early-exit paths (`*return_code = 0`,
no contacts, `normal`/`depth` untouched). -/
noncomputable def boxBoxSeparated : BoxBox2Result := ⟨0, 0, none, none, []⟩

/-- `boxBox2`: the 15-axis separating-axis scan followed by contact
generation.  If the scan exits early or records no axis, zero contacts are
returned with `*return_code = 0`.  Otherwise the contact normal is taken
from `R.getColumn(best_col_id)` — `best_col_id` is set by every recording
block, so the `R1 * normalC` branch is dead, as in the source — and either
the edge–edge closest-point contact (codes above 6) or the clipped face
manifold is produced. -/
noncomputable def boxBox2 (side1 : Vec3 ℝ) (R1 : Mat3 ℝ) (T1 : Vec3 ℝ)
    (side2 : Vec3 ℝ) (R2 : Mat3 ℝ) (T2 : Vec3 ℝ) (maxc : ℕ) : BoxBox2Result :=
  let pre := boxBoxPrelude side1 R1 T1 side2 R2 T2
  let p := pre.1
  let pp := pre.2.1
  let A := pre.2.2.1
  let B := pre.2.2.2.1
  let R := pre.2.2.2.2.1
  let Q := pre.2.2.2.2.2
  let Qf := Q.addScalar fudge2
  match runSteps initAxisState (boxBox2Steps p pp A B R2 R Q Qf) with
  | .error _ => boxBoxSeparated
  | .ok st =>
    if st.code = 0 then boxBoxSeparated
    else
      let normal0 :=
        if st.best_col_id ≠ -1 then R.getColumn st.best_col_id.toNat
        else R1.mulVec st.normalC
      let normal := if st.invert_normal then -normal0 else normal0
      let depth := -st.s
      if 6 < st.code then
        -- an edge from box 1 touches an edge from box 2
        let sign0 : ℝ := if R1.transposeDot 0 normal > 0 then 1 else -1
        let sign1 : ℝ := if R1.transposeDot 1 normal > 0 then 1 else -1
        let sign2 : ℝ := if R1.transposeDot 2 normal > 0 then 1 else -1
        let pa := T1 + (R1.getColumn 0).smul (A.x * sign0)
          + (R1.getColumn 1).smul (A.y * sign1)
          + (R1.getColumn 2).smul (A.z * sign2)
        let tsign0 : ℝ := if R2.transposeDot 0 normal > 0 then 1 else -1
        let tsign1 : ℝ := if R2.transposeDot 1 normal > 0 then 1 else -1
        let tsign2 : ℝ := if R2.transposeDot 2 normal > 0 then 1 else -1
        let pb := T2 + (R2.getColumn 0).smul (B.x * tsign0)
          + (R2.getColumn 1).smul (B.y * tsign1)
          + (R2.getColumn 2).smul (B.z * tsign2)
        let ua := R1.getColumn ((st.code - 7) / 3)
        let ub := R2.getColumn ((st.code - 7) % 3)
        let ab := lineClosestApproach pa ua pb ub
        let pa2 := pa + ua.smul ab.1
        let pb2 := pb + ub.smul ab.2
        let pointInWorld := (pa2 + pb2).smul (1/2)
        ⟨1, st.code, some normal, some depth,
         [⟨-normal, pointInWorld, -depth⟩]⟩
      else
        -- face-something intersection
        let onA := st.code ≤ 3
        let Ra := if onA then R1 else R2
        let Rb := if onA then R2 else R1
        let pa := if onA then T1 else T2
        let pb := if onA then T2 else T1
        let Sa := if onA then A else B
        let Sb := if onA then B else A
        let normal2 := if onA then normal else -normal
        let nr := Rb.transposeTimesVec normal2
        -- the source computes `anr = abs(anr)` from the default-initialized
        -- (zero) vector `anr` instead of `abs(nr)`
        let anr : Vec3 ℝ := Vec3.zero
        let sel : ℕ × ℕ × ℕ :=
          if anr.y > anr.x then
            (if anr.y > anr.z then (1, 0, 2) else (2, 0, 1))
          else
            (if anr.x > anr.z then (0, 1, 2) else (2, 0, 1))
        let lanr := sel.1
        let a1 := sel.2.1
        let a2 := sel.2.2
        let center :=
          if nr.nth lanr < 0 then
            pb - pa + (Rb.getColumn lanr).smul (Sb.nth lanr)
          else
            pb - pa - (Rb.getColumn lanr).smul (Sb.nth lanr)
        let codeN := if onA then st.code - 1 else st.code - 4
        let c12 : ℕ × ℕ :=
          if codeN = 0 then (1, 2) else if codeN = 1 then (0, 2) else (0, 1)
        let code1 := c12.1
        let code2 := c12.2
        let c1 := Ra.transposeDot code1 center
        let c2 := Ra.transposeDot code2 center
        let tempRac1 := Ra.getColumn code1
        let m11 := Rb.transposeDot a1 tempRac1
        let m12 := Rb.transposeDot a2 tempRac1
        let tempRac2 := Ra.getColumn code2
        let m21 := Rb.transposeDot a1 tempRac2
        let m22 := Rb.transposeDot a2 tempRac2
        let k1 := m11 * Sb.nth a1
        let k2 := m21 * Sb.nth a1
        let k3 := m12 * Sb.nth a2
        let k4 := m22 * Sb.nth a2
        let quad : List (ℝ × ℝ) :=
          [(c1 - k1 - k3, c2 - k2 - k4), (c1 - k1 + k3, c2 - k2 + k4),
           (c1 + k1 + k3, c2 + k2 + k4), (c1 + k1 - k3, c2 + k2 - k4)]
        let rect : ℝ × ℝ := (Sa.nth code1, Sa.nth code2)
        let retPts := intersectRectQuad2 rect quad
        if retPts.length < 1 then ⟨0, st.code, some normal, some depth, []⟩
        else
          let det1 := 1 / (m11 * m22 - m12 * m21)
          let m11d := m11 * det1
          let m12d := m12 * det1
          let m21d := m21 * det1
          let m22d := m22 * det1
          let cand := retPts.map (fun rp =>
            let kk1 := m22d * (rp.1 - c1) - m12d * (rp.2 - c2)
            let kk2 := -(m21d * (rp.1 - c1)) + m11d * (rp.2 - c2)
            let point := center + (Rb.getColumn a1).smul kk1
              + (Rb.getColumn a2).smul kk2
            let dep := Sa.nth codeN - normal2.dot point
            (rp, point, dep))
          let kept := cand.filter (fun t => decide (t.2.2 ≥ 0))
          let cnum := kept.length
          if cnum < 1 then ⟨0, st.code, some normal, some depth, []⟩
          else
            let maxc1 := if cnum < maxc then cnum else maxc
            let maxc2 := if maxc1 < 1 then 1 else maxc1
            if cnum ≤ maxc2 then
              ⟨cnum, st.code, some normal, some depth,
               kept.map (fun t =>
                 if st.code < 4 then
                   ⟨-normal, t.2.1 + pa, -t.2.2⟩
                 else
                   ⟨-normal, t.2.1 + pa - normal.smul t.2.2, -t.2.2⟩)⟩
            else
              let deps := kept.map (fun t => t.2.2)
              let i1 := (List.range cnum).foldl
                (fun best i =>
                  if deps.getD i 0 > deps.getD best 0 then i else best) 0
              let iret := cullPoints2 (kept.map (fun t => t.1)) maxc2 i1
              ⟨maxc2, st.code, some normal, some depth,
               iret.map (fun idx =>
                 -- the source indexes the contact-point array at
                 -- `iret[j] * 3` (an out-of-range read for idx > 2,
                 -- modelled as the zero vector)
                 let posInWorld := (kept.map (fun t => t.2.1)).getD (idx * 3)
                   Vec3.zero + pa
                 if st.code < 4 then
                   ⟨-normal, posInWorld, -((kept.getD idx ((0,0), Vec3.zero, 0)).2.2)⟩
                 else
                   ⟨-normal,
                    posInWorld - normal.smul ((kept.getD idx ((0,0), Vec3.zero, 0)).2.2),
                    -((kept.getD idx ((0,0), Vec3.zero, 0)).2.2)⟩)⟩

/-- The early-exit conditions of the 15-axis scan, as the source tests
them: a face axis exits on strictly positive separation; an edge-cross axis
exits only when its `fudge2`-padded separation exceeds machine epsilon. -/
noncomputable def separatingAxisEarlyExit (side1 : Vec3 ℝ) (R1 : Mat3 ℝ)
    (T1 : Vec3 ℝ) (side2 : Vec3 ℝ) (R2 : Mat3 ℝ) (T2 : Vec3 ℝ) : Prop :=
  let pre := boxBoxPrelude side1 R1 T1 side2 R2 T2
  let p := pre.1
  let pp := pre.2.1
  let A := pre.2.2.1
  let B := pre.2.2.2.1
  let R := pre.2.2.2.2.1
  let Q := pre.2.2.2.2.2
  let Qf := Q.addScalar fudge2
  (|pp.x| - (Q.dotX B + A.x) > 0)
  ∨ (|pp.y| - (Q.dotY B + A.y) > 0)
  ∨ (|pp.z| - (Q.dotZ B + A.z) > 0)
  ∨ (|R2.transposeDotX p| - (Q.transposeDotX A + B.x) > 0)
  ∨ (|R2.transposeDotY p| - (Q.transposeDotY A + B.y) > 0)
  ∨ (|R2.transposeDotZ p| - (Q.transposeDotZ A + B.z) > 0)
  ∨ (|pp.z * R.entry 1 0 - pp.y * R.entry 2 0|
      - (A.y * Qf.entry 2 0 + A.z * Qf.entry 1 0
         + B.y * Qf.entry 0 2 + B.z * Qf.entry 0 1) > DBL_EPSILON)
  ∨ (|pp.z * R.entry 1 1 - pp.y * R.entry 2 1|
      - (A.y * Qf.entry 2 1 + A.z * Qf.entry 1 1
         + B.x * Qf.entry 0 2 + B.z * Qf.entry 0 0) > DBL_EPSILON)
  ∨ (|pp.z * R.entry 1 2 - pp.y * R.entry 2 2|
      - (A.y * Qf.entry 2 2 + A.z * Qf.entry 1 2
         + B.x * Qf.entry 0 1 + B.y * Qf.entry 0 0) > DBL_EPSILON)
  ∨ (|pp.x * R.entry 2 0 - pp.z * R.entry 0 0|
      - (A.x * Qf.entry 2 0 + A.z * Qf.entry 0 0
         + B.y * Qf.entry 1 2 + B.z * Qf.entry 1 1) > DBL_EPSILON)
  ∨ (|pp.x * R.entry 2 1 - pp.z * R.entry 0 1|
      - (A.x * Qf.entry 2 1 + A.z * Qf.entry 0 1
         + B.x * Qf.entry 1 2 + B.z * Qf.entry 1 0) > DBL_EPSILON)
  ∨ (|pp.x * R.entry 2 2 - pp.z * R.entry 0 2|
      - (A.x * Qf.entry 2 2 + A.z * Qf.entry 0 2
         + B.x * Qf.entry 1 1 + B.y * Qf.entry 1 0) > DBL_EPSILON)
  ∨ (|pp.y * R.entry 0 0 - pp.x * R.entry 1 0|
      - (A.x * Qf.entry 1 0 + A.y * Qf.entry 0 0
         + B.y * Qf.entry 2 2 + B.z * Qf.entry 2 1) > DBL_EPSILON)
  ∨ (|pp.y * R.entry 0 1 - pp.x * R.entry 1 1|
      - (A.x * Qf.entry 1 1 + A.y * Qf.entry 0 1
         + B.x * Qf.entry 2 2 + B.z * Qf.entry 2 0) > DBL_EPSILON)
  ∨ (|pp.y * R.entry 0 2 - pp.x * R.entry 1 2|
      - (A.x * Qf.entry 1 2 + A.y * Qf.entry 0 2
         + B.x * Qf.entry 2 1 + B.y * Qf.entry 2 0) > DBL_EPSILON)

/-- The rotation of the second box in the skew-edge scenario:
`Rz(3/5, 4/5) · Rx(3/5, 4/5)`, a rational rotation matrix. -/
noncomputable def rotC1 : Mat3 ℝ :=
  ⟨⟨3/5, -(12/25), 16/25⟩, ⟨4/5, 9/25, -(12/25)⟩, ⟨0, 4/5, 3/5⟩⟩

/-- The translation of the second box in the skew-edge scenario: the boxes
are pushed apart along the edge-cross axis `u3 × v1 = (-4/5, 3/5, 0)` by
`1.4 + 10^-6`, separating them by `10^-6` along that axis only. -/
noncomputable def transC1 : Vec3 ℝ :=
  ⟨1400001/1250000, -(4200003/5000000), 0⟩

/-- The unpadded projected separation along the 13th candidate axis
`u3 × v1` (first box's z edge direction crossed with the second box's x
edge direction): the quantity the separating-axis criterion asks about for
that axis, built from the same prelude data as the code's test but with
the plain `Q = |R|` instead of the `fudge2`-padded copy.  Positive exactly
when that axis genuinely separates the boxes (up to the positive axis
length, which is 1 in the scenario below). -/
noncomputable def axis13Separation (side1 : Vec3 ℝ) (R1 : Mat3 ℝ)
    (T1 : Vec3 ℝ) (side2 : Vec3 ℝ) (R2 : Mat3 ℝ) (T2 : Vec3 ℝ) : ℝ :=
  let pre := boxBoxPrelude side1 R1 T1 side2 R2 T2
  let pp := pre.2.1
  let A := pre.2.2.1
  let B := pre.2.2.2.1
  let R := pre.2.2.2.2.1
  let Q := pre.2.2.2.2.2
  |pp.y * R.entry 0 0 - pp.x * R.entry 1 0|
    - (A.x * Q.entry 1 0 + A.y * Q.entry 0 0
       + B.y * Q.entry 2 2 + B.z * Q.entry 2 1)

/-- The result of `boxBoxIntersect`: the boolean answer, the (always
written) normal and depth outputs, and the contact-point output.  The C++
averages the contact points by dividing by `contacts.size()` without
guarding the empty case; the division by zero is modelled as an error
value. -/
structure BoxBoxIntersectResult where
  ret : Bool
  normal : Vec3 ℝ
  depth : Option ℝ
  contact_points : Except Unit (Vec3 ℝ)

/-- `boxBoxIntersect`: run `boxBox2` with up to 4 contacts, then report
`return_code != 0` and average the contact points. -/
noncomputable def boxBoxIntersect (s1 : Box) (tf1 : SimpleTransform)
    (s2 : Box) (tf2 : SimpleTransform) : BoxBoxIntersectResult :=
  let res := boxBox2 s1.side tf1.getRotation tf1.getTranslation
    s2.side tf2.getRotation tf2.getTranslation 4
  let sumPts := res.contacts.foldl (fun acc c => acc + c.point) Vec3.zero
  { ret := decide (res.return_code ≠ 0)
    normal := res.normal.getD Vec3.zero
    depth := res.depth
    contact_points :=
      if res.contacts.length = 0 then .error ()
      else .ok (Vec3.divS sumPts (res.contacts.length : ℝ)) }

end NarrowPhase

/-! ## Continuous-collision leaf test
(`mesh_continuous_collision_traversal_node.h`)

The per-leaf-pair test runs 6 vertex-face and 9 edge-edge sub-tests and
records a pair entry when the minimum reported time lies in `[0,1]`.  The
root-finding routines `Intersect::intersect_VF` / `intersect_EE` are external
collaborators (not among the given sources); they are modelled from the spec
as oracles returning `none` ("no collision in [0,1]") or `some` (time,
position). -/

namespace CCD

open Splitter (Tri)

/-- A recorded continuous-collision pair: primitive ids and collision time. -/
structure BVHContinuousCollisionPair where
  id1 : ℕ
  id2 : ℕ
  collision_time : ℚ
deriving Repr, DecidableEq

/-- Modelled from the spec: the external vertex-face / edge-edge root-finding
sub-test.  Given the eight vertex positions (four at the previous sample,
four at the current one) it reports `none` when there is no collision in
`[0,1]`, or `some (t, pos)` with the earliest interpolation parameter and
contact position. -/
def SubTestOracle : Type :=
  Vec3 ℚ → Vec3 ℚ → Vec3 ℚ → Vec3 ℚ → Vec3 ℚ → Vec3 ℚ → Vec3 ℚ → Vec3 ℚ →
    Option (ℚ × Vec3 ℚ)

/-- The mutable state of a `MeshContinuousCollisionTraversalNode`: the two
meshes' vertex/triangle data, the statistics counters, the recorded pairs
and the query-wide earliest time of contact. -/
structure MeshCCDNode where
  vertices1 : List (Vec3 ℚ)
  vertices2 : List (Vec3 ℚ)
  tri_indices1 : List Tri
  tri_indices2 : List Tri
  prev_vertices1 : List (Vec3 ℚ)
  prev_vertices2 : List (Vec3 ℚ)
  num_vf_tests : ℕ
  num_ee_tests : ℕ
  num_leaf_tests : ℕ
  pairs : List BVHContinuousCollisionPair
  time_of_contact : ℚ
  enable_statistics : Bool
  num_max_contacts : ℕ
deriving Repr, DecidableEq

/-- The constructor `MeshContinuousCollisionTraversalNode()` followed by
`initialize`: counters zeroed, no pairs, `time_of_contact = 1`. -/
def MeshCCDNode.init (vs1 vs2 : List (Vec3 ℚ)) (t1 t2 : List Tri)
    (pv1 pv2 : List (Vec3 ℚ)) (stats : Bool) (maxc : ℕ) : MeshCCDNode :=
  ⟨vs1, vs2, t1, t2, pv1, pv2, 0, 0, 0, [], 1, stats, maxc⟩

/-- The running minimum over the 15 sub-test results: `collision_time`
starts at 2 and each reporting sub-test with a smaller time replaces it
(together with the collision position, initially default-constructed). -/
def minFold (results : List (Option (ℚ × Vec3 ℚ))) : ℚ × Vec3 ℚ :=
  results.foldl
    (fun acc r =>
      match r with
      | none => acc
      | some (t, pos) => if acc.1 > t then (t, pos) else acc)
    (2, Vec3.zero)

/-- The 15 sub-test invocations of `leafTesting`, in source order: for each
`i < 3` the vertex-face test of triangle 1 against vertex `i` of triangle 2
and the one of triangle 2 against vertex `i` of triangle 1, then the nine
edge-edge tests. -/
def leafSubTestResults (intersect_VF intersect_EE : SubTestOracle)
    (node : MeshCCDNode) (primitive_id1 primitive_id2 : ℕ) :
    List (Option (ℚ × Vec3 ℚ)) :=
  let tri_id1 := node.tri_indices1.getD primitive_id1 ⟨0, 0, 0⟩
  let tri_id2 := node.tri_indices2.getD primitive_id2 ⟨0, 0, 0⟩
  let S0 := fun i => node.prev_vertices1.getD (tri_id1.nth i) Vec3.zero
  let S1 := fun i => node.vertices1.getD (tri_id1.nth i) Vec3.zero
  let T0 := fun i => node.prev_vertices2.getD (tri_id2.nth i) Vec3.zero
  let T1 := fun i => node.vertices2.getD (tri_id2.nth i) Vec3.zero
  [intersect_VF (S0 0) (S0 1) (S0 2) (T0 0) (S1 0) (S1 1) (S1 2) (T1 0),
   intersect_VF (T0 0) (T0 1) (T0 2) (S0 0) (T1 0) (T1 1) (T1 2) (S1 0),
   intersect_VF (S0 0) (S0 1) (S0 2) (T0 1) (S1 0) (S1 1) (S1 2) (T1 1),
   intersect_VF (T0 0) (T0 1) (T0 2) (S0 1) (T1 0) (T1 1) (T1 2) (S1 1),
   intersect_VF (S0 0) (S0 1) (S0 2) (T0 2) (S1 0) (S1 1) (S1 2) (T1 2),
   intersect_VF (T0 0) (T0 1) (T0 2) (S0 2) (T1 0) (T1 1) (T1 2) (S1 2),
   intersect_EE (S0 0) (S0 1) (T0 0) (T0 1) (S1 0) (S1 1) (T1 0) (T1 1),
   intersect_EE (S0 0) (S0 1) (T0 1) (T0 2) (S1 0) (S1 1) (T1 1) (T1 2),
   intersect_EE (S0 0) (S0 1) (T0 2) (T0 0) (S1 0) (S1 1) (T1 2) (T1 0),
   intersect_EE (S0 1) (S0 2) (T0 0) (T0 1) (S1 1) (S1 2) (T1 0) (T1 1),
   intersect_EE (S0 1) (S0 2) (T0 1) (T0 2) (S1 1) (S1 2) (T1 1) (T1 2),
   intersect_EE (S0 1) (S0 2) (T0 2) (T0 0) (S1 1) (S1 2) (T1 2) (T1 0),
   intersect_EE (S0 2) (S0 0) (T0 0) (T0 1) (S1 2) (S1 0) (T1 0) (T1 1),
   intersect_EE (S0 2) (S0 0) (T0 1) (T0 2) (S1 2) (S1 0) (T1 1) (T1 2),
   intersect_EE (S0 2) (S0 0) (T0 2) (T0 0) (S1 2) (S1 0) (T1 2) (T1 0)]

/-- The statistics-counter updates performed during one `leafTesting` call:
the leaf and VF counters only when `enable_statistics` is set, the EE
counter always (as in the source). -/
def bumpCounters (node : MeshCCDNode) : MeshCCDNode :=
  if node.enable_statistics then
    { node with
      num_leaf_tests := node.num_leaf_tests + 1
      num_vf_tests := node.num_vf_tests + 6
      num_ee_tests := node.num_ee_tests + 9 }
  else
    { node with num_ee_tests := node.num_ee_tests + 9 }

/-- `MeshContinuousCollisionTraversalNode::leafTesting` on the primitive
pair of two leaves: run the 15 sub-tests, track the minimum reported time
(starting from 2), and when the minimum is not above 1 record a pair entry
and lower the query-wide `time_of_contact`. -/
def leafTesting (intersect_VF intersect_EE : SubTestOracle)
    (node : MeshCCDNode) (primitive_id1 primitive_id2 : ℕ) : MeshCCDNode :=
  let node := bumpCounters node
  let collision_time :=
    (minFold (leafSubTestResults intersect_VF intersect_EE node
        primitive_id1 primitive_id2)).1
  if ¬(collision_time > 1) then
    { node with
      pairs := node.pairs
        ++ [⟨primitive_id1, primitive_id2, collision_time⟩]
      time_of_contact := min node.time_of_contact collision_time }
  else
    node

/-- `canStop`: the traversal may stop once the recorded pair count reaches
the requested maximum. -/
def canStop (node : MeshCCDNode) : Bool :=
  node.pairs.length > 0 ∧ node.num_max_contacts ≤ node.pairs.length

/-- The times of the reporting sub-tests. -/
def reportedTimes (results : List (Option (ℚ × Vec3 ℚ))) : List ℚ :=
  results.filterMap (fun r => r.map Prod.fst)

end CCD

end FCL

/-! # Theorems -/

namespace FCL

namespace Morton

/-- For a normalized coordinate in `[0, 1)`, `quantize` is plain flooring. -/
lemma quantize_of_mem_Ico {t : ℚ} {n : ℕ} (hn : 0 < n) (h0 : 0 ≤ t) (h1 : t < 1) :
    quantize t n = ⌊t * (n : ℚ)⌋₊ := by
  have hnn : (0 : ℚ) ≤ t * n := by positivity
  have hlt : t * (n : ℚ) < n := by
    calc t * (n : ℚ) < 1 * n := by
          apply mul_lt_mul_of_pos_right h1 (by exact_mod_cast hn)
      _ = n := one_mul _
  have hfloor : ⌊t * (n : ℚ)⌋.toNat = ⌊t * (n : ℚ)⌋₊ := Int.floor_toNat _
  have hle : ⌊t * (n : ℚ)⌋₊ ≤ n - 1 := by
    have : ⌊t * (n : ℚ)⌋₊ < n := by
      rw [Nat.floor_lt hnn]
      exact_mod_cast hlt
    omega
  unfold quantize
  rw [hfloor]
  omega

/-- Quantizing to 20 bits then dropping the low 10 bits is quantizing to
10 bits: the per-axis hierarchical relationship. -/
lemma quantize_shift {t : ℚ} (h0 : 0 ≤ t) (h1 : t < 1) :
    quantize t (2^20) >>> 10 = quantize t 1024 := by
  rw [quantize_of_mem_Ico (by norm_num) h0 h1,
      quantize_of_mem_Ico (by norm_num) h0 h1]
  rw [Nat.shiftRight_eq_div_pow]
  rw [show ⌊t * ((1024 : ℕ) : ℚ)⌋₊ = ⌊t * ((2^20 : ℕ) : ℚ) / ((1024 : ℕ) : ℚ)⌋₊ by
        congr 1
        push_cast
        ring]
  rw [Nat.floor_div_nat (t * ((2^20 : ℕ) : ℚ)) 1024]

/-- The final masking step bounds each spread value by the last magic mask. -/
lemma mortonSpread_le (v : ℕ) : mortonSpread v ≤ 0x09249249 :=
  Nat.and_le_right

/-- The 30-bit interleaving always fits in 30 bits. -/
lemma morton_code_lt (x y z : ℕ) : morton_code x y z < 2^30 := by
  have hx : mortonSpread x < 2^30 :=
    lt_of_le_of_lt (mortonSpread_le x) (by norm_num)
  have hy : mortonSpread y <<< 1 < 2^30 :=
    Nat.shiftLeft_lt (n := 29) (lt_of_le_of_lt (mortonSpread_le y) (by norm_num))
  have hz : mortonSpread z <<< 2 < 2^30 :=
    Nat.shiftLeft_lt (n := 28) (lt_of_le_of_lt (mortonSpread_le z) (by norm_num))
  have h : mortonSpread x ||| (mortonSpread y <<< 1) ||| (mortonSpread z <<< 2) < 2^30 :=
    Nat.bitwise_lt (Nat.bitwise_lt hx hy) hz
  unfold morton_code
  rw [Nat.mod_eq_of_lt (lt_trans h (by norm_num))]
  exact h

/-- Dropping the low 30 bits of a 60-bit concatenation recovers the high code. -/
lemma shiftLeft30_lor_shiftRight30 {a b : ℕ} (hb : b < 2^30) :
    (a <<< 30 ||| b) >>> 30 = a := by
  apply Nat.eq_of_testBit_eq
  intro i
  rw [Nat.testBit_shiftRight, Nat.testBit_lor, Nat.testBit_shiftLeft]
  have hbf : b.testBit (30 + i) = false :=
    Nat.testBit_lt_two_pow
      (lt_of_lt_of_le hb (Nat.pow_le_pow_right (by norm_num) (by omega)))
  simp [hbf]

/-- The high 30 bits of the 60-bit code are the 30-bit interleaving of the
high halves of the axis values. -/
lemma morton_code60_shiftRight (x y z : ℕ) :
    morton_code60 x y z >>> 30
      = morton_code ((x % 2^32) >>> 10) ((y % 2^32) >>> 10) ((z % 2^32) >>> 10) := by
  unfold morton_code60
  exact shiftLeft30_lor_shiftRight30 (morton_code_lt _ _ _)

/-- `quantize` never exceeds `n - 1`. -/
lemma quantize_le (t : ℚ) (n : ℕ) : quantize t n ≤ n - 1 := by
  unfold quantize
  omega

/-- C9: for a reference box with positive extents and a point whose
normalized coordinates lie in `[0, 1)`, the high 30 bits of the 60-bit morton
key equal the 30-bit morton key, and per axis the 20-bit quantized value
right-shifted by 10 bits is the 10-bit quantized value. -/
theorem morton60_hi_eq_morton30 (bbox : AABB) (p : Vec3 ℚ)
    (hex : bbox.min_.x < bbox.max_.x) (hey : bbox.min_.y < bbox.max_.y)
    (hez : bbox.min_.z < bbox.max_.z)
    (hx0 : 0 ≤ (p.x - (functorBase bbox).x) * (functorInv bbox).x)
    (hx1 : (p.x - (functorBase bbox).x) * (functorInv bbox).x < 1)
    (hy0 : 0 ≤ (p.y - (functorBase bbox).y) * (functorInv bbox).y)
    (hy1 : (p.y - (functorBase bbox).y) * (functorInv bbox).y < 1)
    (hz0 : 0 ≤ (p.z - (functorBase bbox).z) * (functorInv bbox).z)
    (hz1 : (p.z - (functorBase bbox).z) * (functorInv bbox).z < 1) :
    mortonFunctor60 bbox p >>> 30 = mortonFunctor30 bbox p
    ∧ quantize ((p.x - (functorBase bbox).x) * (functorInv bbox).x) (2^20) >>> 10
        = quantize ((p.x - (functorBase bbox).x) * (functorInv bbox).x) 1024
    ∧ quantize ((p.y - (functorBase bbox).y) * (functorInv bbox).y) (2^20) >>> 10
        = quantize ((p.y - (functorBase bbox).y) * (functorInv bbox).y) 1024
    ∧ quantize ((p.z - (functorBase bbox).z) * (functorInv bbox).z) (2^20) >>> 10
        = quantize ((p.z - (functorBase bbox).z) * (functorInv bbox).z) 1024 := by
  have hmod : ∀ t : ℚ, quantize t (2^20) % 2^32 = quantize t (2^20) := by
    intro t
    exact Nat.mod_eq_of_lt (lt_of_le_of_lt (quantize_le t (2^20)) (by norm_num))
  refine ⟨?_, quantize_shift hx0 hx1, quantize_shift hy0 hy1, quantize_shift hz0 hz1⟩
  unfold mortonFunctor60 mortonFunctor30
  rw [morton_code60_shiftRight, hmod, hmod, hmod,
      quantize_shift hx0 hx1, quantize_shift hy0 hy1, quantize_shift hz0 hz1]

/-- Witness for C9 at the unit box and the point `(1/2, 1/4, 3/4)`. -/
theorem morton60_hi_eq_morton30_witness :
    (((0:ℚ) < 1) ∧
      mortonFunctor60 ⟨⟨0,0,0⟩, ⟨1,1,1⟩⟩ ⟨1/2, 1/4, 3/4⟩ >>> 30
        = mortonFunctor30 ⟨⟨0,0,0⟩, ⟨1,1,1⟩⟩ ⟨1/2, 1/4, 3/4⟩) :=
  ⟨by norm_num,
   (morton60_hi_eq_morton30 ⟨⟨0,0,0⟩, ⟨1,1,1⟩⟩ ⟨1/2, 1/4, 3/4⟩
      (by norm_num) (by norm_num) (by norm_num)
      (by norm_num [functorBase, functorInv]) (by norm_num [functorBase, functorInv])
      (by norm_num [functorBase, functorInv]) (by norm_num [functorBase, functorInv])
      (by norm_num [functorBase, functorInv]) (by norm_num [functorBase, functorInv])).1⟩

end Morton

namespace Splitter

/-- Counting below a cut position in a strictly increasing list: if the first
`m` positions hold values `≤ v` and all later positions hold values `> v`,
then exactly `m` elements are `≤ v`. -/
lemma countP_le_eq_of_cut (v : ℚ) :
    ∀ (l : List ℚ) (m : ℕ), m ≤ l.length →
      (∀ (i : ℕ) (hi : i < l.length),
        (i < m → l.get ⟨i, hi⟩ ≤ v) ∧ (m ≤ i → v < l.get ⟨i, hi⟩)) →
      l.countP (fun t => decide (t ≤ v)) = m := by
  intro l
  induction l with
  | nil =>
      intro m hm _
      simp at hm
      simp [hm]
  | cons a l ih =>
      intro m hm hcut
      cases m with
      | zero =>
          rw [List.countP_eq_zero]
          intro x hx
          rw [List.mem_iff_get] at hx
          obtain ⟨⟨i, hi⟩, rfl⟩ := hx
          have := (hcut i hi).2 (Nat.zero_le i)
          simpa using this
      | succ m' =>
          have ha : a ≤ v := by
            have := (hcut 0 (Nat.succ_pos _)).1 (Nat.succ_pos _)
            simpa using this
          rw [List.countP_cons]
          have hrec : l.countP (fun t => decide (t ≤ v)) = m' := by
            apply ih m' (by simpa using hm)
            intro i hi
            refine ⟨fun him => ?_, fun him => ?_⟩
            · have := (hcut (i+1) (by simpa using Nat.succ_lt_succ hi)).1
                (Nat.succ_lt_succ him)
              simpa using this
            · have := (hcut (i+1) (by simpa using Nat.succ_lt_succ hi)).2
                (Nat.succ_le_succ him)
              simpa using this
          simp [hrec, ha]

/-- Complementary count: under the same cut hypotheses, exactly
`length - m` elements are `> v`. -/
lemma countP_gt_eq_of_cut (v : ℚ) (l : List ℚ) (m : ℕ) (hm : m ≤ l.length)
    (hcut : ∀ (i : ℕ) (hi : i < l.length),
      (i < m → l.get ⟨i, hi⟩ ≤ v) ∧ (m ≤ i → v < l.get ⟨i, hi⟩)) :
    l.countP (fun t => decide (v < t)) = l.length - m := by
  have hle := countP_le_eq_of_cut v l m hm hcut
  have hsplit := List.length_eq_countP_add_countP (fun t => decide (t ≤ v)) (l := l)
  have hcongr :
      l.countP (fun a => decide ¬((fun t => decide (t ≤ v)) a = true))
        = l.countP (fun t => decide (v < t)) := by
    apply List.countP_congr
    intro x _
    simp [not_le]
  rw [hcongr] at hsplit
  omega

/-- The median threshold balances any duplicate-free projection list. -/
lemma medianOfProjections_balanced (proj : List ℚ) (hne : proj ≠ [])
    (hd : proj.Nodup) :
    balancedAt proj (medianOfProjections proj proj.length) := by
  have hnpos : 0 < proj.length := List.length_pos.2 hne
  have hperm : (proj.insertionSort (· ≤ ·)).Perm proj := List.perm_insertionSort _ _
  have hlen : (proj.insertionSort (· ≤ ·)).length = proj.length := hperm.length_eq
  have hsortedle : (proj.insertionSort (· ≤ ·)).Sorted (· ≤ ·) :=
    List.sorted_insertionSort _ _
  have hnodup : (proj.insertionSort (· ≤ ·)).Nodup := hperm.nodup_iff.2 hd
  have hlt : (proj.insertionSort (· ≤ ·)).Sorted (· < ·) := hsortedle.lt_of_le hnodup
  have hsm : StrictMono (proj.insertionSort (· ≤ ·)).get := hlt.get_strictMono
  set l := proj.insertionSort (· ≤ ·) with hldef
  set n := proj.length with hndef
  have hcle : ∀ v : ℚ, proj.countP (fun t => decide (t ≤ v))
      = l.countP (fun t => decide (t ≤ v)) := fun v => (hperm.countP_eq _).symm
  have hcgt : ∀ v : ℚ, proj.countP (fun t => decide (v < t))
      = l.countP (fun t => decide (v < t)) := fun v => (hperm.countP_eq _).symm
  unfold balancedAt
  by_cases hpar : n % 2 = 1
  · -- odd count: the middle element
    have hq : (n - 1) / 2 < l.length := by omega
    have hvv : medianOfProjections proj n = l.get ⟨(n - 1) / 2, hq⟩ := by
      unfold medianOfProjections
      rw [← hldef, if_pos hpar, List.getD_eq_getElem _ _ hq]
      simp
    set v := medianOfProjections proj n with hvdef
    have hcut : ∀ (i : ℕ) (hi : i < l.length),
        (i < (n - 1) / 2 + 1 → l.get ⟨i, hi⟩ ≤ v) ∧
        ((n - 1) / 2 + 1 ≤ i → v < l.get ⟨i, hi⟩) := by
      intro i hi
      constructor
      · intro him
        rw [hvv]
        exact hsortedle.get_mono (by simpa using Nat.lt_succ_iff.mp him)
      · intro him
        rw [hvv]
        exact hsm (by simpa using him)
    have h1 := countP_le_eq_of_cut v l ((n - 1) / 2 + 1) (by omega) hcut
    have h2 := countP_gt_eq_of_cut v l ((n - 1) / 2 + 1) (by omega) hcut
    rw [hcle, hcgt, h1, h2, hlen]
    omega
  · -- even count: average of the two central elements
    have hn2 : 2 ≤ n := by omega
    have hqb : n / 2 < l.length := by omega
    have hqa : n / 2 - 1 < l.length := by omega
    have hvv : medianOfProjections proj n
        = (l.get ⟨n / 2, hqb⟩ + l.get ⟨n / 2 - 1, hqa⟩) / 2 := by
      unfold medianOfProjections
      rw [← hldef, if_neg hpar, List.getD_eq_getElem _ _ hqb,
          List.getD_eq_getElem _ _ hqa]
      simp
    set v := medianOfProjections proj n with hvdef
    have hab : l.get ⟨n / 2 - 1, hqa⟩ < l.get ⟨n / 2, hqb⟩ :=
      hsm (by simp; omega)
    have hav : l.get ⟨n / 2 - 1, hqa⟩ < v := by rw [hvv]; linarith
    have hvb : v < l.get ⟨n / 2, hqb⟩ := by rw [hvv]; linarith
    have hcut : ∀ (i : ℕ) (hi : i < l.length),
        (i < n / 2 → l.get ⟨i, hi⟩ ≤ v) ∧ (n / 2 ≤ i → v < l.get ⟨i, hi⟩) := by
      intro i hi
      constructor
      · intro him
        have : l.get ⟨i, hi⟩ ≤ l.get ⟨n / 2 - 1, hqa⟩ :=
          hsortedle.get_mono (by simp; omega)
        linarith
      · intro him
        have : l.get ⟨n / 2, hqb⟩ ≤ l.get ⟨i, hi⟩ :=
          hsortedle.get_mono (by simpa using him)
        linarith
    have h1 := countP_le_eq_of_cut v l (n / 2) (by omega) hcut
    have h2 := countP_gt_eq_of_cut v l (n / 2) (by omega) hcut
    rw [hcle, hcgt, h1, h2, hlen]
    omega

/-- The projection array has one entry per primitive index. -/
lemma medianProjections_length (sp : BVSplitterState) (idx : List ℕ) (axis : ℕ) :
    (medianProjections sp idx axis).length = idx.length := by
  unfold medianProjections
  cases sp.type <;> simp

/-- The oriented projection array has one entry per primitive index. -/
lemma medianProjectionsVec_length (tp : BVHModelType) (vs : List (Vec3 ℚ))
    (ts : List Tri) (idx : List ℕ) (sv : Vec3 ℚ) :
    (medianProjectionsVec tp vs ts idx sv).length = idx.length := by
  unfold medianProjectionsVec
  cases tp <;> simp

/-- C5 (amended): for a non-empty primitive subset whose representative
projections are pairwise distinct, the median split threshold computed by
`ComputeRuleMedianImpl::run` (and by the oriented `computeSplitValue_median`)
leaves the `≤ threshold` and `> threshold` projection counts within 1 of each
other. -/
theorem median_split_balance (sp : BVSplitterState) (bv : AABB) (idx : List ℕ)
    (tp : BVHModelType) (vs : List (Vec3 ℚ)) (ts : List Tri) (sv : Vec3 ℚ)
    (hne : idx ≠ [])
    (hd : (medianProjections sp idx (selectLongestAxis bv)).Nodup)
    (hdv : (medianProjectionsVec tp vs ts idx sv).Nodup) :
    balancedAt (medianProjections sp idx (selectLongestAxis bv))
      (ComputeRuleMedianImpl_run sp bv idx).split_value
    ∧ balancedAt (medianProjectionsVec tp vs ts idx sv)
        (computeSplitValue_median tp vs ts idx sv) := by
  have hidx : 0 < idx.length := List.length_pos.2 hne
  constructor
  · have hlen := medianProjections_length sp idx (selectLongestAxis bv)
    have hne' : medianProjections sp idx (selectLongestAxis bv) ≠ [] := by
      intro h
      rw [h] at hlen
      simp at hlen
      omega
    have hbal := medianOfProjections_balanced _ hne' hd
    rw [hlen] at hbal
    simpa [ComputeRuleMedianImpl_run] using hbal
  · have hlen := medianProjectionsVec_length tp vs ts idx sv
    have hne' : medianProjectionsVec tp vs ts idx sv ≠ [] := by
      intro h
      rw [h] at hlen
      simp at hlen
      omega
    have hbal := medianOfProjections_balanced _ hne' hdv
    rw [hlen] at hbal
    simpa [computeSplitValue_median] using hbal

/-- Witness for C5 at a 3-point point cloud with distinct coordinates. -/
theorem median_split_balance_witness :
    (([0, 1, 2] : List ℕ) ≠ []
      ∧ balancedAt
          (medianProjections
            ⟨0, Vec3.zero, 0, [⟨1,0,0⟩, ⟨3,0,0⟩, ⟨2,0,0⟩], [],
              BVH_MODEL_POINTCLOUD, SPLIT_METHOD_MEDIAN⟩
            [0, 1, 2] (selectLongestAxis ⟨⟨0,0,0⟩, ⟨1,1,1⟩⟩))
          (ComputeRuleMedianImpl_run
            ⟨0, Vec3.zero, 0, [⟨1,0,0⟩, ⟨3,0,0⟩, ⟨2,0,0⟩], [],
              BVH_MODEL_POINTCLOUD, SPLIT_METHOD_MEDIAN⟩
            ⟨⟨0,0,0⟩, ⟨1,1,1⟩⟩ [0, 1, 2]).split_value) :=
  ⟨by decide,
   (median_split_balance
      ⟨0, Vec3.zero, 0, [⟨1,0,0⟩, ⟨3,0,0⟩, ⟨2,0,0⟩], [],
        BVH_MODEL_POINTCLOUD, SPLIT_METHOD_MEDIAN⟩
      ⟨⟨0,0,0⟩, ⟨1,1,1⟩⟩ [0, 1, 2]
      BVH_MODEL_POINTCLOUD [⟨1,0,0⟩, ⟨3,0,0⟩, ⟨2,0,0⟩] [] ⟨1,0,0⟩
      (by decide)
      (by norm_num [medianProjections, vertexAt, Vec3.nth, Vec3.zero,
            selectLongestAxis, AABB.width, AABB.height, AABB.depth])
      (by norm_num [medianProjectionsVec, Vec3.dot, Vec3.zero])).1⟩

/-- C5 counterexample: a 2-point point cloud with coincident points has
median threshold 0, and the counts (2 below-or-equal, 0 above) differ by 2,
violating the claimed balance for arbitrary non-empty subsets. -/
theorem median_split_balance_counterexample :
    ¬ balancedAt
        (medianProjections
          ⟨0, Vec3.zero, 0, [Vec3.zero, Vec3.zero], [],
            BVH_MODEL_POINTCLOUD, SPLIT_METHOD_MEDIAN⟩
          [0, 1] (selectLongestAxis ⟨⟨0,0,0⟩, ⟨1,1,1⟩⟩))
        (ComputeRuleMedianImpl_run
          ⟨0, Vec3.zero, 0, [Vec3.zero, Vec3.zero], [],
            BVH_MODEL_POINTCLOUD, SPLIT_METHOD_MEDIAN⟩
          ⟨⟨0,0,0⟩, ⟨1,1,1⟩⟩ [0, 1]).split_value := by
  norm_num [balancedAt, medianProjections, vertexAt, Vec3.nth, Vec3.zero,
    selectLongestAxis, AABB.width, AABB.height, AABB.depth,
    ComputeRuleMedianImpl_run, medianOfProjections,
    List.insertionSort, List.orderedInsert, List.countP_cons]

/-- C6 (amended): for an oriented volume the bv-center rule installs the
volume's principal orientation vector (first frame column) as the split
vector, and the *first coordinate* of the volume's center as the split
threshold. -/
theorem computeRuleCenter_obb_rule (sp : BVSplitterState) (bv : OBB) :
    (ComputeRuleCenterImpl_OBB_run sp bv).split_vector = bv.axisCol0
    ∧ (ComputeRuleCenterImpl_OBB_run sp bv).split_value = (bv.center).nth 0 :=
  ⟨rfl, rfl⟩

/-- C6 counterexample: an OBB with principal axis `(0,1,0)` and center
`(3,5,0)` gets split threshold `3` (the center's first coordinate), not the
claimed dot product `center ⋅ axis = 5`. -/
theorem computeRuleCenter_obb_counterexample :
    (ComputeRuleCenterImpl_OBB_run
        ⟨0, Vec3.zero, 0, [], [], BVH_MODEL_TRIANGLES, SPLIT_METHOD_BV_CENTER⟩
        ⟨⟨0,1,0⟩, ⟨1,0,0⟩, ⟨0,0,1⟩, ⟨3,5,0⟩⟩).split_value = 3
    ∧ Vec3.dot
        (OBB.center ⟨⟨0,1,0⟩, ⟨1,0,0⟩, ⟨0,0,1⟩, ⟨3,5,0⟩⟩)
        (ComputeRuleCenterImpl_OBB_run
          ⟨0, Vec3.zero, 0, [], [], BVH_MODEL_TRIANGLES, SPLIT_METHOD_BV_CENTER⟩
          ⟨⟨0,1,0⟩, ⟨1,0,0⟩, ⟨0,0,1⟩, ⟨3,5,0⟩⟩).split_vector = 5
    ∧ (3 : ℚ) ≠ 5 := by
  refine ⟨rfl, ?_, by norm_num⟩
  norm_num [ComputeRuleCenterImpl_OBB_run, computeSplitVector, OBB.center, Vec3.dot]

/-- A list all of whose elements are zero reads zero at every position. -/
lemma getD_zero_of_all_zero (l : List ℚ) (h : ∀ x ∈ l, x = 0) (i : ℕ) :
    l.getD i 0 = 0 := by
  rcases lt_or_ge i l.length with hi | hi
  · have hg : l.getD i 0 = l.get ⟨i, hi⟩ := by
      rw [List.getD_eq_getElem _ _ hi]
      simp
    rw [hg]
    exact h _ (List.get_mem l i hi)
  · exact List.getD_eq_default _ _ hi

/-- The median of a zero-filled projection array is zero. -/
lemma medianOfProjections_replicate_zero (m n : ℕ) :
    medianOfProjections (List.replicate m (0 : ℚ)) n = 0 := by
  have hperm := List.perm_insertionSort (α := ℚ) (· ≤ ·) (List.replicate m 0)
  have hall : ∀ x ∈ (List.replicate (α := ℚ) m 0).insertionSort (· ≤ ·), x = 0 :=
    fun x hx => List.eq_of_mem_replicate (hperm.mem_iff.1 hx)
  have hgetD := getD_zero_of_all_zero _ hall
  unfold medianOfProjections
  by_cases h : n % 2 = 1
  · rw [if_pos h]
    exact hgetD _
  · rw [if_neg h, hgetD, hgetD]
    norm_num

/-- C7 (amended): `computeRule` with the mean or median heuristic on an
unsupported geometry classification (`BVH_MODEL_UNKNOWN`) silently produces
the default split threshold 0; no failure is raised. -/
theorem computeRule_unknown_silent_default (sp : BVSplitterState) (bv : AABB)
    (idx : List ℕ)
    (ht : sp.type = BVH_MODEL_UNKNOWN)
    (hm : sp.split_method = SPLIT_METHOD_MEAN
          ∨ sp.split_method = SPLIT_METHOD_MEDIAN) :
    (computeRule sp bv idx).split_value = 0 := by
  rcases hm with hm | hm <;> unfold computeRule <;> rw [hm]
  · unfold ComputeRuleMeanImpl_run
    rw [ht]
    simp
  · unfold ComputeRuleMedianImpl_run medianProjections
    rw [ht]
    simp [medianOfProjections_replicate_zero]

/-- Witness for C7: a one-point cloud left in the `BVH_MODEL_UNKNOWN` state
(with vertex data `(5,5,5)`) still yields split threshold 0 under the mean
heuristic. -/
theorem computeRule_unknown_silent_default_witness :
    ((BVH_MODEL_UNKNOWN : BVHModelType) = BVH_MODEL_UNKNOWN
      ∧ (computeRule
          ⟨0, Vec3.zero, 0, [⟨5,5,5⟩], [], BVH_MODEL_UNKNOWN, SPLIT_METHOD_MEAN⟩
          ⟨⟨0,0,0⟩, ⟨1,1,1⟩⟩ [0]).split_value = 0) :=
  ⟨rfl,
   computeRule_unknown_silent_default
      ⟨0, Vec3.zero, 0, [⟨5,5,5⟩], [], BVH_MODEL_UNKNOWN, SPLIT_METHOD_MEAN⟩
      ⟨⟨0,0,0⟩, ⟨1,1,1⟩⟩ [0] rfl (Or.inl rfl)⟩

/-- C7 counterexample: with an unsupported geometry classification the mean
rule silently returns the data-independent default threshold 0 — for vertex
data `(5,5,5)` and for `(9,9,9)` alike — instead of failing loudly. -/
theorem computeRule_unknown_counterexample :
    (computeRule
        ⟨0, Vec3.zero, 7, [⟨5,5,5⟩], [], BVH_MODEL_UNKNOWN, SPLIT_METHOD_MEAN⟩
        ⟨⟨0,0,0⟩, ⟨1,1,1⟩⟩ [0]).split_value = 0
    ∧ (computeRule
        ⟨0, Vec3.zero, 7, [⟨9,9,9⟩], [], BVH_MODEL_UNKNOWN, SPLIT_METHOD_MEAN⟩
        ⟨⟨0,0,0⟩, ⟨1,1,1⟩⟩ [0]).split_value = 0 := by
  constructor <;>
    norm_num [computeRule, ComputeRuleMeanImpl_run, selectLongestAxis,
      AABB.width, AABB.height, AABB.depth]

end Splitter

namespace NarrowPhase

/-- Unfolding lemma for vector addition. -/
lemma Vec3.add_def {α : Type} [CommRing α] (a b : Vec3 α) :
    a + b = ⟨a.x + b.x, a.y + b.y, a.z + b.z⟩ := rfl

/-- Unfolding lemma for vector subtraction. -/
lemma Vec3.sub_def {α : Type} [CommRing α] (a b : Vec3 α) :
    a - b = ⟨a.x - b.x, a.y - b.y, a.z - b.z⟩ := rfl

/-- Unfolding lemma for vector negation. -/
lemma Vec3.neg_def {α : Type} [CommRing α] (a : Vec3 α) :
    -a = ⟨-a.x, -a.y, -a.z⟩ := rfl

/-- The center-to-center offset of two identity-rotation transforms. -/
lemma transform_zero (t : Vec3 ℝ) :
    (SimpleTransform.at t).transform Vec3.zero = t := by
  simp [SimpleTransform.at, SimpleTransform.transform, Mat3.mulVec, Mat3.identity,
    Vec3.dot, Vec3.zero, Vec3.add_def]

/-- C2: for every two spheres and poses, `sphereSphereIntersect` and
`sphereSphereDistance` report opposite booleans (so exactly one reports
`true`, the tangent case `len = r1 + r2` counting as intersecting); on
`false` the distance query writes the sentinel `-1`; on `true` it writes the
strictly positive separation `len - (r1 + r2)`. -/
theorem sphereSphere_exclusive (s1 : Sphere) (tf1 : SimpleTransform)
    (s2 : Sphere) (tf2 : SimpleTransform) :
    ((sphereSphereIntersect s1 tf1 s2 tf2).1
        = !(sphereSphereDistance s1 tf1 s2 tf2).1)
    ∧ (Vec3.length (tf1.transform Vec3.zero - tf2.transform Vec3.zero)
          = s1.radius + s2.radius →
        (sphereSphereIntersect s1 tf1 s2 tf2).1 = true
        ∧ (sphereSphereDistance s1 tf1 s2 tf2).1 = false)
    ∧ ((sphereSphereDistance s1 tf1 s2 tf2).1 = false →
        (sphereSphereDistance s1 tf1 s2 tf2).2 = -1)
    ∧ ((sphereSphereDistance s1 tf1 s2 tf2).1 = true →
        (sphereSphereDistance s1 tf1 s2 tf2).2
            = Vec3.length (tf1.transform Vec3.zero - tf2.transform Vec3.zero)
              - (s1.radius + s2.radius)
        ∧ 0 < (sphereSphereDistance s1 tf1 s2 tf2).2) := by
  by_cases h : Vec3.length (tf1.transform Vec3.zero - tf2.transform Vec3.zero)
      > s1.radius + s2.radius
  · have hI : sphereSphereIntersect s1 tf1 s2 tf2 = (false, ⟨none, none, none⟩) := by
      simp only [sphereSphereIntersect]
      rw [if_pos h]
    have hD : sphereSphereDistance s1 tf1 s2 tf2
        = (true, Vec3.length (tf1.transform Vec3.zero - tf2.transform Vec3.zero)
            - (s1.radius + s2.radius)) := by
      simp only [sphereSphereDistance]
      rw [if_pos h]
    rw [hI, hD]
    refine ⟨rfl, fun he => absurd he (by linarith), ?_, fun _ => ⟨rfl, ?_⟩⟩
    · intro hfalse
      simp at hfalse
    · show (0:ℝ) < Vec3.length (tf1.transform Vec3.zero - tf2.transform Vec3.zero)
        - (s1.radius + s2.radius)
      linarith
  · have hI : sphereSphereIntersect s1 tf1 s2 tf2
        = (true,
           ⟨some (tf1.transform Vec3.zero
              + (tf1.transform Vec3.zero - tf2.transform Vec3.zero).smul (1/2)),
            some (s1.radius + s2.radius
              - Vec3.length (tf1.transform Vec3.zero - tf2.transform Vec3.zero)),
            some (if Vec3.length (tf1.transform Vec3.zero - tf2.transform Vec3.zero) > 0
              then Vec3.divS (tf1.transform Vec3.zero - tf2.transform Vec3.zero)
                (Vec3.length (tf1.transform Vec3.zero - tf2.transform Vec3.zero))
              else tf1.transform Vec3.zero - tf2.transform Vec3.zero)⟩) := by
      simp only [sphereSphereIntersect]
      rw [if_neg h]
    have hD : sphereSphereDistance s1 tf1 s2 tf2 = (false, -1) := by
      simp only [sphereSphereDistance]
      rw [if_neg h]
    rw [hI, hD]
    refine ⟨rfl, fun _ => ⟨rfl, rfl⟩, fun _ => rfl, ?_⟩
    intro htrue
    simp at htrue

/-- Witness for C2 at unit spheres centered at the origin and `(3,0,0)`:
the distance query reports `true` with separation `1`. -/
theorem sphereSphere_exclusive_witness :
    (sphereSphereDistance ⟨1⟩ (.at ⟨0,0,0⟩) ⟨1⟩ (.at ⟨3,0,0⟩)).1 = true
    ∧ (sphereSphereDistance ⟨1⟩ (.at ⟨0,0,0⟩) ⟨1⟩ (.at ⟨3,0,0⟩)).2 = 1 := by
  have hlen : Vec3.length
      ((SimpleTransform.at (⟨0,0,0⟩ : Vec3 ℝ)).transform Vec3.zero
        - (SimpleTransform.at (⟨3,0,0⟩ : Vec3 ℝ)).transform Vec3.zero) = 3 := by
    rw [transform_zero, transform_zero]
    unfold Vec3.length
    rw [Vec3.sub_def]
    simp only [Vec3.dot]
    rw [show ((0:ℝ) - 3) * ((0:ℝ) - 3) + ((0:ℝ) - 0) * ((0:ℝ) - 0)
          + ((0:ℝ) - 0) * ((0:ℝ) - 0) = 3^2 by norm_num]
    exact Real.sqrt_sq (by norm_num)
  have htrue : (sphereSphereDistance ⟨1⟩ (.at ⟨0,0,0⟩) ⟨1⟩ (.at ⟨3,0,0⟩)).1 = true := by
    simp only [sphereSphereDistance, hlen]
    norm_num
  have hmain := (sphereSphere_exclusive ⟨1⟩ (.at ⟨0,0,0⟩) ⟨1⟩ (.at ⟨3,0,0⟩)).2.2.2 htrue
  refine ⟨htrue, ?_⟩
  rw [hmain.1, hlen]
  norm_num

/-- C3 evaluated at the failing input (unit spheres centered at the origin
and `(3/2, 0, 0)`): depth `1/2` and normal `(-1,0,0)` are as the claim says,
but the written contact point is `c1 + (c1 - c2) * 0.5 = (-3/4, 0, 0)`, whose
x-coordinate `-3/4` lies strictly below both centers' x-coordinates (0 and
3/2) — outside the segment between the centers — and differs from the
midpoint between the two surfaces, `(3/4, 0, 0)`. -/
theorem sphereSphereIntersect_contact_point_eval :
    (sphereSphereIntersect ⟨1⟩ (.at ⟨0,0,0⟩) ⟨1⟩ (.at ⟨3/2,0,0⟩)).1 = true
    ∧ (sphereSphereIntersect ⟨1⟩ (.at ⟨0,0,0⟩) ⟨1⟩
        (.at ⟨3/2,0,0⟩)).2.penetration_depth = some (1/2)
    ∧ (sphereSphereIntersect ⟨1⟩ (.at ⟨0,0,0⟩) ⟨1⟩
        (.at ⟨3/2,0,0⟩)).2.normal = some ⟨-1, 0, 0⟩
    ∧ (sphereSphereIntersect ⟨1⟩ (.at ⟨0,0,0⟩) ⟨1⟩
        (.at ⟨3/2,0,0⟩)).2.contact_points = some ⟨-3/4, 0, 0⟩
    ∧ ((-3/4 : ℝ) < 0 ∧ (0:ℝ) < 3/2)
    ∧ ((⟨3/4, 0, 0⟩ : Vec3 ℝ) ≠ ⟨-3/4, 0, 0⟩) := by
  have hdiff : (SimpleTransform.at (⟨0,0,0⟩ : Vec3 ℝ)).transform Vec3.zero
      - (SimpleTransform.at (⟨3/2,0,0⟩ : Vec3 ℝ)).transform Vec3.zero
        = (⟨-(3/2), 0, 0⟩ : Vec3 ℝ) := by
    rw [transform_zero, transform_zero, Vec3.sub_def]
    norm_num
  have hlen : Vec3.length (⟨-(3/2), 0, 0⟩ : Vec3 ℝ) = 3/2 := by
    unfold Vec3.length
    simp only [Vec3.dot]
    rw [show (-(3/2:ℝ)) * (-(3/2:ℝ)) + (0:ℝ) * 0 + (0:ℝ) * 0 = (3/2)^2 by norm_num]
    exact Real.sqrt_sq (by norm_num)
  have heval : sphereSphereIntersect ⟨1⟩ (.at ⟨0,0,0⟩) ⟨1⟩ (.at ⟨3/2,0,0⟩)
      = (true,
         ⟨some ⟨-3/4, 0, 0⟩, some (1/2), some ⟨-1, 0, 0⟩⟩) := by
    simp only [sphereSphereIntersect]
    rw [hdiff, hlen]
    rw [if_neg (by norm_num)]
    rw [if_pos (by norm_num)]
    rw [transform_zero]
    simp only [Vec3.smul, Vec3.divS, Vec3.add_def]
    norm_num
  rw [heval]
  refine ⟨rfl, rfl, rfl, rfl, by norm_num, ?_⟩
  intro h
  have := congrArg Vec3.x h
  norm_num at this

/-- Machine epsilon is positive. -/
lemma DBL_EPSILON_pos : (0:ℝ) < DBL_EPSILON := by
  unfold DBL_EPSILON
  positivity

/-- C4 (amended): whenever `sphereTriangleIntersect` takes the edge-fallback
path (center within padded radius of the plane, projection outside the
triangle) and the *last* edge in enumeration order (edge 3-1) qualifies, the
reported contact point is the nearest point on edge 3-1, regardless of
whether earlier edges also qualified: a later qualifying edge overwrites a
previously accepted contact point. -/
theorem sphereTriangleIntersect_last_edge_wins
    (s : Sphere) (tf : SimpleTransform) (P1 P2 P3 : Vec3 ℝ)
    (hplane : (sphereTriPlaneDistAndNormal tf.getTranslation P1 P2 P3).1
        < s.radius + DBL_EPSILON)
    (houtside : projectInTriangle P1 P2 P3 tf.getTranslation
        (sphereTriPlaneDistAndNormal tf.getTranslation P1 P2 P3).2 = false)
    (hq3 : (segmentSqrDistance P3 P1 tf.getTranslation).1
        < (s.radius + DBL_EPSILON) * (s.radius + DBL_EPSILON))
    (haccept : (tf.getTranslation - (segmentSqrDistance P3 P1 tf.getTranslation).2).dot
        (tf.getTranslation - (segmentSqrDistance P3 P1 tf.getTranslation).2)
        < (s.radius + DBL_EPSILON) * (s.radius + DBL_EPSILON)) :
    (sphereTriangleIntersect s tf P1 P2 P3).1 = true
    ∧ (sphereTriangleIntersect s tf P1 P2 P3).2.contact_points
        = some (segmentSqrDistance P3 P1 tf.getTranslation).2 := by
  have hcontact : sphereTriangleEdgeContact (s.radius + DBL_EPSILON) P1 P2 P3
      tf.getTranslation = some (segmentSqrDistance P3 P1 tf.getTranslation).2 := by
    simp only [sphereTriangleEdgeContact]
    rw [if_pos hq3]
  have hres : sphereTriangleIntersect s tf P1 P2 P3
      = (let contact_point := (segmentSqrDistance P3 P1 tf.getTranslation).2
         let contact_to_center := tf.getTranslation - contact_point
         let distance_sqr := contact_to_center.dot contact_to_center
         if distance_sqr > 0 then
           (true, ⟨some contact_point,
                   some (-(s.radius - Real.sqrt distance_sqr)),
                   some (Vec3.normalized contact_to_center)⟩)
         else
           (true, ⟨some contact_point, some (-s.radius),
                   some (sphereTriPlaneDistAndNormal tf.getTranslation P1 P2 P3).2⟩)) := by
    simp only [sphereTriangleIntersect]
    rw [if_pos hplane, houtside]
    simp only [Bool.false_eq_true, if_false, hcontact]
    rw [if_pos haccept]
  rw [hres]
  by_cases hd : (tf.getTranslation - (segmentSqrDistance P3 P1 tf.getTranslation).2).dot
      (tf.getTranslation - (segmentSqrDistance P3 P1 tf.getTranslation).2) > 0
  · simp [if_pos hd]
  · simp [if_neg hd]

/-- Evaluation of the edge 1-2 query in the C4 scenario: the sphere center
`(2,-1,0)` is nearest to the endpoint `(1,0,0)` at squared distance 2. -/
lemma segEval12 :
    segmentSqrDistance (⟨0,0,0⟩ : Vec3 ℝ) ⟨1,0,0⟩ ⟨2,-1,0⟩ = (2, ⟨1,0,0⟩) := by
  simp only [segmentSqrDistance, Vec3.dot, Vec3.sub_def, Vec3.smul, Vec3.add_def]
  norm_num

/-- Evaluation of the edge 2-3 query in the C4 scenario. -/
lemma segEval23 :
    segmentSqrDistance (⟨1,0,0⟩ : Vec3 ℝ) ⟨0,1,0⟩ ⟨2,-1,0⟩ = (2, ⟨1,0,0⟩) := by
  simp only [segmentSqrDistance, Vec3.dot, Vec3.sub_def, Vec3.smul, Vec3.add_def]
  norm_num

/-- Evaluation of the edge 3-1 query in the C4 scenario: nearest point
`(0,0,0)` at squared distance 5. -/
lemma segEval31 :
    segmentSqrDistance (⟨0,1,0⟩ : Vec3 ℝ) ⟨0,0,0⟩ ⟨2,-1,0⟩ = (5, ⟨0,0,0⟩) := by
  simp only [segmentSqrDistance, Vec3.dot, Vec3.sub_def, Vec3.smul, Vec3.add_def]
  norm_num

/-- The unit triangle in the z=0 plane has unit plane normal `(0,0,1)`. -/
lemma triNormalEval :
    triNormal0 (⟨0,0,0⟩ : Vec3 ℝ) ⟨1,0,0⟩ ⟨0,1,0⟩ = ⟨0,0,1⟩ := by
  unfold triNormal0 Vec3.normalized Vec3.length
  simp only [Vec3.cross, Vec3.sub_def, Vec3.dot, Vec3.divS]
  norm_num

/-- The in-plane center `(2,-1,0)` has plane distance 0 and keeps the
normal `(0,0,1)`. -/
lemma pdEval :
    sphereTriPlaneDistAndNormal (⟨2,-1,0⟩ : Vec3 ℝ) ⟨0,0,0⟩ ⟨1,0,0⟩ ⟨0,1,0⟩
      = (0, ⟨0,0,1⟩) := by
  unfold sphereTriPlaneDistAndNormal
  rw [triNormalEval]
  simp only [Vec3.dot, Vec3.sub_def]
  norm_num

/-- The (argument-swapped) in-triangle test reports `false` in the C4
scenario, sending the search to the edge fallback. -/
lemma projEval :
    projectInTriangle (⟨0,0,0⟩ : Vec3 ℝ) ⟨1,0,0⟩ ⟨0,1,0⟩ ⟨2,-1,0⟩ ⟨0,0,1⟩
      = false := by
  simp only [projectInTriangle, Vec3.cross, Vec3.sub_def, Vec3.dot]
  norm_num

/-- The padded squared radius in the C4 scenario exceeds 5. -/
lemma paddedRadiusSq_gt :
    (5:ℝ) < ((3:ℝ) + DBL_EPSILON) * ((3:ℝ) + DBL_EPSILON) := by
  nlinarith [DBL_EPSILON_pos]

/-- C4 counterexample: for the radius-3 sphere centered at `(2,-1,0)` and
the unit triangle `(0,0,0), (1,0,0), (0,1,0)`, the first edge in enumeration
order (1-2) qualifies with nearest point `(1,0,0)`, a later edge (3-1) also
qualifies, and the reported contact point is `(0,0,0)` — the *last*
qualifying edge's nearest point, not the first's. -/
theorem sphereTriangle_first_edge_counterexample :
    (segmentSqrDistance (⟨0,0,0⟩ : Vec3 ℝ) ⟨1,0,0⟩ ⟨2,-1,0⟩).1
        < ((3:ℝ) + DBL_EPSILON) * ((3:ℝ) + DBL_EPSILON)
    ∧ (segmentSqrDistance (⟨0,0,0⟩ : Vec3 ℝ) ⟨1,0,0⟩ ⟨2,-1,0⟩).2 = ⟨1,0,0⟩
    ∧ (segmentSqrDistance (⟨0,1,0⟩ : Vec3 ℝ) ⟨0,0,0⟩ ⟨2,-1,0⟩).1
        < ((3:ℝ) + DBL_EPSILON) * ((3:ℝ) + DBL_EPSILON)
    ∧ (sphereTriangleIntersect ⟨3⟩ (.at ⟨2,-1,0⟩)
        ⟨0,0,0⟩ ⟨1,0,0⟩ ⟨0,1,0⟩).2.contact_points = some ⟨0,0,0⟩
    ∧ some (⟨0,0,0⟩ : Vec3 ℝ) ≠ some (⟨1,0,0⟩ : Vec3 ℝ) := by
  have htr : (SimpleTransform.at (⟨2,-1,0⟩ : Vec3 ℝ)).getTranslation = ⟨2,-1,0⟩ := rfl
  have hcontact : sphereTriangleEdgeContact ((3:ℝ) + DBL_EPSILON)
      ⟨0,0,0⟩ ⟨1,0,0⟩ ⟨0,1,0⟩ ⟨2,-1,0⟩ = some ⟨0,0,0⟩ := by
    simp only [sphereTriangleEdgeContact, segEval31]
    rw [if_pos (by simpa using paddedRadiusSq_gt)]
  have heval : (sphereTriangleIntersect ⟨3⟩ (.at ⟨2,-1,0⟩)
      ⟨0,0,0⟩ ⟨1,0,0⟩ ⟨0,1,0⟩).2.contact_points = some ⟨0,0,0⟩ := by
    simp only [sphereTriangleIntersect, htr, pdEval]
    rw [if_pos (by
      show (0:ℝ) < (3:ℝ) + DBL_EPSILON
      nlinarith [DBL_EPSILON_pos])]
    rw [projEval]
    simp only [Bool.false_eq_true, if_false, hcontact]
    have hd5 : ((⟨2,-1,0⟩ : Vec3 ℝ) - ⟨0,0,0⟩).dot ((⟨2,-1,0⟩ : Vec3 ℝ) - ⟨0,0,0⟩)
        = 5 := by
      simp only [Vec3.dot, Vec3.sub_def]
      norm_num
    rw [hd5]
    rw [if_pos paddedRadiusSq_gt]
    rw [if_pos (by norm_num : (5:ℝ) > 0)]
  refine ⟨by rw [segEval12]; exact lt_trans (by norm_num) paddedRadiusSq_gt,
          by rw [segEval12],
          by rw [segEval31]; exact paddedRadiusSq_gt,
          heval, ?_⟩
  intro h
  have := congrArg Vec3.x (Option.some.injEq _ _ ▸ h : (⟨0,0,0⟩ : Vec3 ℝ) = ⟨1,0,0⟩)
  norm_num at this

/-- Witness for the amended C4 theorem at the same scenario: the theorem's
hypotheses hold and the contact point is edge 3-1's nearest point. -/
theorem sphereTriangleIntersect_last_edge_wins_witness :
    (sphereTriangleIntersect ⟨3⟩ (.at ⟨2,-1,0⟩)
        ⟨0,0,0⟩ ⟨1,0,0⟩ ⟨0,1,0⟩).1 = true
    ∧ (sphereTriangleIntersect ⟨3⟩ (.at ⟨2,-1,0⟩)
        ⟨0,0,0⟩ ⟨1,0,0⟩ ⟨0,1,0⟩).2.contact_points
        = some (segmentSqrDistance (⟨0,1,0⟩ : Vec3 ℝ) ⟨0,0,0⟩
            ((SimpleTransform.at (⟨2,-1,0⟩ : Vec3 ℝ)).getTranslation)).2 := by
  have htr : (SimpleTransform.at (⟨2,-1,0⟩ : Vec3 ℝ)).getTranslation = ⟨2,-1,0⟩ := rfl
  apply sphereTriangleIntersect_last_edge_wins
  · rw [htr, pdEval]
    show (0:ℝ) < (3:ℝ) + DBL_EPSILON
    nlinarith [DBL_EPSILON_pos]
  · rw [htr, pdEval]
    exact projEval
  · rw [htr, segEval31]
    exact paddedRadiusSq_gt
  · rw [htr, segEval31]
    have hd5 : ((⟨2,-1,0⟩ : Vec3 ℝ) - ⟨0,0,0⟩).dot ((⟨2,-1,0⟩ : Vec3 ℝ) - ⟨0,0,0⟩)
        = 5 := by
      simp only [Vec3.dot, Vec3.sub_def]
      norm_num
    rw [hd5]
    exact paddedRadiusSq_gt

/-- One successful axis block advances the scan. -/
lemma runSteps_cons {f : AxisState → Except Unit AxisState}
    {fs : List (AxisState → Except Unit AxisState)} {st st' : AxisState}
    (h : f st = .ok st') : runSteps st (f :: fs) = runSteps st' fs := by
  show (match f st with
        | .error e => .error e
        | .ok st'' => runSteps st'' fs) = runSteps st' fs
  rw [h]

/-- If some block of the scan exits for every state, the scan exits. -/
lemma runSteps_error (st : AxisState)
    (fs : List (AxisState → Except Unit AxisState))
    (f : AxisState → Except Unit AxisState) (hf : f ∈ fs)
    (herr : ∀ st', f st' = .error ()) : runSteps st fs = .error () := by
  induction fs generalizing st with
  | nil => cases hf
  | cons g fs ih =>
      rcases List.mem_cons.1 hf with rfl | hf
      · unfold runSteps
        rw [herr st]
      · unfold runSteps
        cases hg : g st with
        | error e =>
            cases e
            rfl
        | ok st' => exact ih st' hf

/-- Any of the 15 early-exit conditions makes `boxBox2` return the
all-zero separated result. -/
lemma boxBox2_eq_separated_of_exit (side1 : Vec3 ℝ) (R1 : Mat3 ℝ)
    (T1 : Vec3 ℝ) (side2 : Vec3 ℝ) (R2 : Mat3 ℝ) (T2 : Vec3 ℝ)
    (hexit : separatingAxisEarlyExit side1 R1 T1 side2 R2 T2) :
    ∀ mc : ℕ, boxBox2 side1 R1 T1 side2 R2 T2 mc = boxBoxSeparated := by
    intro mc
    unfold separatingAxisEarlyExit at hexit
    have hrun : runSteps initAxisState
        (boxBox2Steps (boxBoxPrelude side1 R1 T1 side2 R2 T2).1
          (boxBoxPrelude side1 R1 T1 side2 R2 T2).2.1
          (boxBoxPrelude side1 R1 T1 side2 R2 T2).2.2.1
          (boxBoxPrelude side1 R1 T1 side2 R2 T2).2.2.2.1
          R2
          (boxBoxPrelude side1 R1 T1 side2 R2 T2).2.2.2.2.1
          (boxBoxPrelude side1 R1 T1 side2 R2 T2).2.2.2.2.2
          ((boxBoxPrelude side1 R1 T1 side2 R2 T2).2.2.2.2.2.addScalar fudge2))
        = .error () := by
      rcases hexit with h|h|h|h|h|h|h|h|h|h|h|h|h|h|h
      · exact runSteps_error _ _ _ (by unfold boxBox2Steps; exact List.mem_cons_self _ _)
          (fun st => by unfold faceStepA; rw [if_pos h])
      · exact runSteps_error _ _ _ (by unfold boxBox2Steps; exact List.mem_cons_of_mem _ (List.mem_cons_self _ _))
          (fun st => by unfold faceStepA; rw [if_pos h])
      · exact runSteps_error _ _ _ (by unfold boxBox2Steps; exact List.mem_cons_of_mem _ (List.mem_cons_of_mem _ (List.mem_cons_self _ _)))
          (fun st => by unfold faceStepA; rw [if_pos h])
      · exact runSteps_error _ _ _ (by unfold boxBox2Steps; exact List.mem_cons_of_mem _ (List.mem_cons_of_mem _ (List.mem_cons_of_mem _ (List.mem_cons_self _ _))))
          (fun st => by unfold faceStepB; rw [if_pos h])
      · exact runSteps_error _ _ _ (by unfold boxBox2Steps; exact List.mem_cons_of_mem _ (List.mem_cons_of_mem _ (List.mem_cons_of_mem _ (List.mem_cons_of_mem _ (List.mem_cons_self _ _)))))
          (fun st => by unfold faceStepB; rw [if_pos h])
      · exact runSteps_error _ _ _ (by unfold boxBox2Steps; exact List.mem_cons_of_mem _ (List.mem_cons_of_mem _ (List.mem_cons_of_mem _ (List.mem_cons_of_mem _ (List.mem_cons_of_mem _ (List.mem_cons_self _ _))))))
          (fun st => by unfold faceStepB; rw [if_pos h])
      · exact runSteps_error _ _ _ (by unfold boxBox2Steps; exact List.mem_cons_of_mem _ (List.mem_cons_of_mem _ (List.mem_cons_of_mem _ (List.mem_cons_of_mem _ (List.mem_cons_of_mem _ (List.mem_cons_of_mem _ (List.mem_cons_self _ _)))))))
          (fun st => by unfold edgeStep; rw [if_pos h])
      · exact runSteps_error _ _ _ (by unfold boxBox2Steps; exact List.mem_cons_of_mem _ (List.mem_cons_of_mem _ (List.mem_cons_of_mem _ (List.mem_cons_of_mem _ (List.mem_cons_of_mem _ (List.mem_cons_of_mem _ (List.mem_cons_of_mem _ (List.mem_cons_self _ _))))))))
          (fun st => by unfold edgeStep; rw [if_pos h])
      · exact runSteps_error _ _ _ (by unfold boxBox2Steps; exact List.mem_cons_of_mem _ (List.mem_cons_of_mem _ (List.mem_cons_of_mem _ (List.mem_cons_of_mem _ (List.mem_cons_of_mem _ (List.mem_cons_of_mem _ (List.mem_cons_of_mem _ (List.mem_cons_of_mem _ (List.mem_cons_self _ _)))))))))
          (fun st => by unfold edgeStep; rw [if_pos h])
      · exact runSteps_error _ _ _ (by unfold boxBox2Steps; exact List.mem_cons_of_mem _ (List.mem_cons_of_mem _ (List.mem_cons_of_mem _ (List.mem_cons_of_mem _ (List.mem_cons_of_mem _ (List.mem_cons_of_mem _ (List.mem_cons_of_mem _ (List.mem_cons_of_mem _ (List.mem_cons_of_mem _ (List.mem_cons_self _ _))))))))))
          (fun st => by unfold edgeStep; rw [if_pos h])
      · exact runSteps_error _ _ _ (by unfold boxBox2Steps; exact List.mem_cons_of_mem _ (List.mem_cons_of_mem _ (List.mem_cons_of_mem _ (List.mem_cons_of_mem _ (List.mem_cons_of_mem _ (List.mem_cons_of_mem _ (List.mem_cons_of_mem _ (List.mem_cons_of_mem _ (List.mem_cons_of_mem _ (List.mem_cons_of_mem _ (List.mem_cons_self _ _)))))))))))
          (fun st => by unfold edgeStep; rw [if_pos h])
      · exact runSteps_error _ _ _ (by unfold boxBox2Steps; exact List.mem_cons_of_mem _ (List.mem_cons_of_mem _ (List.mem_cons_of_mem _ (List.mem_cons_of_mem _ (List.mem_cons_of_mem _ (List.mem_cons_of_mem _ (List.mem_cons_of_mem _ (List.mem_cons_of_mem _ (List.mem_cons_of_mem _ (List.mem_cons_of_mem _ (List.mem_cons_of_mem _ (List.mem_cons_self _ _))))))))))))
          (fun st => by unfold edgeStep; rw [if_pos h])
      · exact runSteps_error _ _ _ (by unfold boxBox2Steps; exact List.mem_cons_of_mem _ (List.mem_cons_of_mem _ (List.mem_cons_of_mem _ (List.mem_cons_of_mem _ (List.mem_cons_of_mem _ (List.mem_cons_of_mem _ (List.mem_cons_of_mem _ (List.mem_cons_of_mem _ (List.mem_cons_of_mem _ (List.mem_cons_of_mem _ (List.mem_cons_of_mem _ (List.mem_cons_of_mem _ (List.mem_cons_self _ _)))))))))))))
          (fun st => by unfold edgeStep; rw [if_pos h])
      · exact runSteps_error _ _ _ (by unfold boxBox2Steps; exact List.mem_cons_of_mem _ (List.mem_cons_of_mem _ (List.mem_cons_of_mem _ (List.mem_cons_of_mem _ (List.mem_cons_of_mem _ (List.mem_cons_of_mem _ (List.mem_cons_of_mem _ (List.mem_cons_of_mem _ (List.mem_cons_of_mem _ (List.mem_cons_of_mem _ (List.mem_cons_of_mem _ (List.mem_cons_of_mem _ (List.mem_cons_of_mem _ (List.mem_cons_self _ _))))))))))))))
          (fun st => by unfold edgeStep; rw [if_pos h])
      · exact runSteps_error _ _ _ (by unfold boxBox2Steps; exact List.mem_cons_of_mem _ (List.mem_cons_of_mem _ (List.mem_cons_of_mem _ (List.mem_cons_of_mem _ (List.mem_cons_of_mem _ (List.mem_cons_of_mem _ (List.mem_cons_of_mem _ (List.mem_cons_of_mem _ (List.mem_cons_of_mem _ (List.mem_cons_of_mem _ (List.mem_cons_of_mem _ (List.mem_cons_of_mem _ (List.mem_cons_of_mem _ (List.mem_cons_of_mem _ (List.mem_cons_self _ _)))))))))))))))
          (fun st => by unfold edgeStep; rw [if_pos h])
    simp only [boxBox2]
    rw [hrun]

/-- When the inner `boxBox2` comes back separated, `boxBoxIntersect`
reports `false` and its contact average divides by zero. -/
lemma boxBoxIntersect_of_separated (b1 b2 : Box) (tf1 tf2 : SimpleTransform)
    (hbb : boxBox2 b1.side tf1.getRotation tf1.getTranslation
      b2.side tf2.getRotation tf2.getTranslation 4 = boxBoxSeparated) :
    (boxBoxIntersect b1 tf1 b2 tf2).ret = false
    ∧ (boxBoxIntersect b1 tf1 b2 tf2).contact_points = .error () := by
  constructor
  · simp only [boxBoxIntersect, hbb]
    rfl
  · simp only [boxBoxIntersect, hbb]
    rfl

/-- C1 (amended): whenever one of the code's 15 early-exit conditions holds
— a face axis with strictly positive separation, or an edge-cross axis
whose fudge-padded separation exceeds machine epsilon — `boxBox2` returns
zero contacts with `*return_code = 0`, and `boxBoxIntersect` on the
corresponding shapes reports `false`.  In particular two axis-aligned boxes
with no overlap along one of their own face axes satisfy one of the first
three disjuncts. -/
theorem boxBox2_early_exit_zero_contacts (side1 : Vec3 ℝ) (R1 : Mat3 ℝ)
    (T1 : Vec3 ℝ) (side2 : Vec3 ℝ) (R2 : Mat3 ℝ) (T2 : Vec3 ℝ) (maxc : ℕ)
    (hexit : separatingAxisEarlyExit side1 R1 T1 side2 R2 T2) :
    boxBox2 side1 R1 T1 side2 R2 T2 maxc = boxBoxSeparated
    ∧ (∀ (b1 b2 : Box) (tf1 tf2 : SimpleTransform),
        b1.side = side1 → tf1.R = R1 → tf1.T = T1 →
        b2.side = side2 → tf2.R = R2 → tf2.T = T2 →
        (boxBoxIntersect b1 tf1 b2 tf2).ret = false) := by
  have herr := boxBox2_eq_separated_of_exit side1 R1 T1 side2 R2 T2 hexit
  refine ⟨herr maxc, ?_⟩
  intro b1 b2 tf1 tf2 h1 h2 h3 h4 h5 h6
  have hbb : boxBox2 b1.side tf1.getRotation tf1.getTranslation
      b2.side tf2.getRotation tf2.getTranslation 4 = boxBoxSeparated := by
    rw [SimpleTransform.getRotation, SimpleTransform.getTranslation,
        SimpleTransform.getRotation, SimpleTransform.getTranslation,
        h1, h2, h3, h4, h5, h6]
    exact herr 4
  exact (boxBoxIntersect_of_separated b1 b2 tf1 tf2 hbb).1

/-- Witness for the amended C1 theorem: two axis-aligned unit cubes with
centers 3 apart along x early-exit on the first face axis and report no
intersection. -/
theorem boxBox2_early_exit_zero_contacts_witness :
    separatingAxisEarlyExit ⟨1,1,1⟩ Mat3.identity ⟨0,0,0⟩
      ⟨1,1,1⟩ Mat3.identity ⟨3,0,0⟩
    ∧ boxBox2 ⟨1,1,1⟩ Mat3.identity ⟨0,0,0⟩ ⟨1,1,1⟩ Mat3.identity ⟨3,0,0⟩ 4
        = boxBoxSeparated
    ∧ (boxBoxIntersect ⟨⟨1,1,1⟩⟩ (.at ⟨0,0,0⟩) ⟨⟨1,1,1⟩⟩ (.at ⟨3,0,0⟩)).ret
        = false := by
  have hexit : separatingAxisEarlyExit ⟨1,1,1⟩ Mat3.identity ⟨0,0,0⟩
      ⟨1,1,1⟩ Mat3.identity ⟨3,0,0⟩ := by
    unfold separatingAxisEarlyExit boxBoxPrelude
    left
    norm_num [Mat3.transposeTimesVec, Mat3.transposeTimesMat, Mat3.getColumn,
      Mat3.identity, Mat3.absMat, Mat3.dotX, Vec3.dot, Vec3.smul, Vec3.sub_def,
      Vec3.nth, abs_of_nonneg]
  have hmain := boxBox2_early_exit_zero_contacts ⟨1,1,1⟩ Mat3.identity ⟨0,0,0⟩
    ⟨1,1,1⟩ Mat3.identity ⟨3,0,0⟩ 4 hexit
  exact ⟨hexit, hmain.1,
    hmain.2 ⟨⟨1,1,1⟩⟩ ⟨⟨1,1,1⟩⟩ (.at ⟨0,0,0⟩) (.at ⟨3,0,0⟩)
      rfl rfl rfl rfl rfl rfl⟩

/-- C10: for the disjoint unit cubes 3 apart, `boxBoxIntersect` returns
`false`, `boxBox2` produced zero contacts, and the contact-point output is
the unguarded average over an empty contact list — a division by a contact
count of zero, well-defined only when at least one contact exists. -/
theorem boxBoxIntersect_empty_average_division :
    (boxBox2 ⟨1,1,1⟩ Mat3.identity ⟨0,0,0⟩ ⟨1,1,1⟩ Mat3.identity ⟨3,0,0⟩
        4).contacts = []
    ∧ (boxBoxIntersect ⟨⟨1,1,1⟩⟩ (.at ⟨0,0,0⟩) ⟨⟨1,1,1⟩⟩ (.at ⟨3,0,0⟩)).ret
        = false
    ∧ (boxBoxIntersect ⟨⟨1,1,1⟩⟩ (.at ⟨0,0,0⟩)
        ⟨⟨1,1,1⟩⟩ (.at ⟨3,0,0⟩)).contact_points = .error () := by
  have hexit : separatingAxisEarlyExit ⟨1,1,1⟩ Mat3.identity ⟨0,0,0⟩
      ⟨1,1,1⟩ Mat3.identity ⟨3,0,0⟩ := by
    unfold separatingAxisEarlyExit boxBoxPrelude
    left
    norm_num [Mat3.transposeTimesVec, Mat3.transposeTimesMat, Mat3.getColumn,
      Mat3.identity, Mat3.absMat, Mat3.dotX, Vec3.dot, Vec3.smul, Vec3.sub_def,
      Vec3.nth, abs_of_nonneg]
  have hbb := boxBox2_eq_separated_of_exit ⟨1,1,1⟩ Mat3.identity ⟨0,0,0⟩
    ⟨1,1,1⟩ Mat3.identity ⟨3,0,0⟩ hexit 4
  have hint := boxBoxIntersect_of_separated ⟨⟨1,1,1⟩⟩ ⟨⟨1,1,1⟩⟩
    (.at ⟨0,0,0⟩) (.at ⟨3,0,0⟩) (by exact hbb)
  exact ⟨by rw [hbb]; rfl, hint.1, hint.2⟩

/-- Machine epsilon is far below `10^-6`. -/
lemma DBL_EPSILON_small : DBL_EPSILON < 1/1000000 := by
  unfold DBL_EPSILON
  norm_num

/-- Square roots of a value in `(DBL_EPSILON^2, 1]` lie in
`(DBL_EPSILON, 1]`. -/
lemma sqrt_facts (r : ℝ) (h1 : DBL_EPSILON^2 < r) (h2 : r ≤ 1) :
    DBL_EPSILON < Real.sqrt r ∧ Real.sqrt r ≤ 1 ∧ 0 < Real.sqrt r := by
  have h0 : (0:ℝ) < r := lt_of_le_of_lt (by positivity) h1
  exact ⟨(Real.lt_sqrt DBL_EPSILON_pos.le).2 (by simpa using h1),
    Real.sqrt_le_one.2 h2, Real.sqrt_pos.2 h0⟩

/-- Machine epsilon squared is below any value of at least `1/4`. -/
lemma eps_sq_lt {r : ℝ} (hr : (1/4:ℝ) ≤ r) : DBL_EPSILON^2 < r := by
  nlinarith [DBL_EPSILON_pos, DBL_EPSILON_small]

/-- A first-box face block with nonpositive separation that beats the
running best records the axis. -/
lemma faceStepA_update {tmp s2 : ℝ} {col : ℤ} {codek : ℕ} {st : AxisState}
    (h0 : ¬ s2 > 0) (hgt : s2 > st.s) :
    faceStepA tmp s2 col codek st
      = .ok ⟨s2, col, decide (tmp < 0), codek, st.normalC⟩ := by
  simp only [faceStepA]
  rw [if_neg h0, if_pos hgt]

/-- A first-box face block with nonpositive separation that does not beat
the running best keeps the state. -/
lemma faceStepA_keep {tmp s2 : ℝ} {col : ℤ} {codek : ℕ} {st : AxisState}
    (h0 : ¬ s2 > 0) (hle : ¬ s2 > st.s) :
    faceStepA tmp s2 col codek st = .ok st := by
  simp only [faceStepA]
  rw [if_neg h0, if_neg hle]

/-- A second-box face block with nonpositive separation that does not beat
the running best keeps the state. -/
lemma faceStepB_keep {tmp s2 : ℝ} {col : ℤ} {codek : ℕ} {st : AxisState}
    (h0 : ¬ s2 > 0) (hle : ¬ s2 > st.s) :
    faceStepB tmp s2 col codek st = .ok st := by
  simp only [faceStepB]
  rw [if_neg h0, if_neg hle]

/-- An edge-cross block whose axis has squared length in `[1/4, 1]` and
whose nonpositive separation does not beat the running best (already after
the face bias) keeps the state. -/
lemma edgeStep_skip {tmp s2 : ℝ} {n : Vec3 ℝ} {codek : ℕ} {st : AxisState}
    (r : ℝ) (hdot : n.dot n = r) (hlo : (1/4:ℝ) ≤ r) (hhi : r ≤ 1)
    (hs2 : s2 ≤ 0) (hsk : s2 * fudge_factor ≤ st.s) :
    edgeStep tmp s2 n codek st = .ok st := by
  obtain ⟨hle, hone, hpos⟩ := sqrt_facts (n.dot n)
    (by rw [hdot]; exact eps_sq_lt hlo) (by rw [hdot]; exact hhi)
  have hlpos : 0 < Vec3.length n := by simpa [Vec3.length] using hpos
  have hlone : Vec3.length n ≤ 1 := by simpa [Vec3.length] using hone
  have h0 : ¬ s2 > DBL_EPSILON := by
    simp only [gt_iff_lt, not_lt]
    nlinarith [DBL_EPSILON_pos]
  have hl : Vec3.length n > DBL_EPSILON := by
    simpa [Vec3.length] using hle
  have hnot : ¬ s2 / Vec3.length n * fudge_factor > st.s := by
    have hdivle : s2 / Vec3.length n ≤ s2 := by
      rw [div_le_iff hlpos]
      nlinarith [mul_nonneg (neg_nonneg.2 hs2) (sub_nonneg.2 hlone)]
    have hff : (0:ℝ) < fudge_factor := by norm_num [fudge_factor]
    simp only [gt_iff_lt, not_lt]
    calc s2 / Vec3.length n * fudge_factor
        ≤ s2 * fudge_factor := mul_le_mul_of_nonneg_right hdivle hff.le
      _ ≤ st.s := hsk
  simp only [edgeStep]
  rw [if_neg h0, if_pos hl, if_neg hnot]

/-- An edge-cross block with non-exiting separation, non-degenerate axis
and a biased separation beating the running best records the axis. -/
lemma edgeStep_update {tmp s2 : ℝ} {n : Vec3 ℝ} {codek : ℕ} {st : AxisState}
    (h0 : ¬ s2 > DBL_EPSILON) (hl : Vec3.length n > DBL_EPSILON)
    (hgt : s2 / Vec3.length n * fudge_factor > st.s) :
    edgeStep tmp s2 n codek st
      = .ok ⟨s2 / Vec3.length n, 0, decide (tmp < 0), codek,
             Vec3.divS n (Vec3.length n)⟩ := by
  simp only [edgeStep]
  rw [if_neg h0, if_pos hl, if_pos hgt]

/-- The 13th candidate axis of the skew-edge scenario has length 1. -/
lemma lenAxis13 : Vec3.length (⟨-(4/5), 3/5, 0⟩ : Vec3 ℝ) = 1 := by
  unfold Vec3.length
  rw [show Vec3.dot (⟨-(4/5), 3/5, 0⟩ : Vec3 ℝ) ⟨-(4/5), 3/5, 0⟩ = 1 by
    norm_num [Vec3.dot]]
  exact Real.sqrt_one

/-- When the scan ends in the state of code 13, `boxBox2` reports one
contact with return code 13. -/
lemma boxBox2_code13_result (side1 : Vec3 ℝ) (R1 : Mat3 ℝ) (T1 : Vec3 ℝ)
    (side2 : Vec3 ℝ) (R2 : Mat3 ℝ) (T2 : Vec3 ℝ) (mc : ℕ) (st : AxisState)
    (hrun : runSteps initAxisState
        (boxBox2Steps (boxBoxPrelude side1 R1 T1 side2 R2 T2).1
          (boxBoxPrelude side1 R1 T1 side2 R2 T2).2.1
          (boxBoxPrelude side1 R1 T1 side2 R2 T2).2.2.1
          (boxBoxPrelude side1 R1 T1 side2 R2 T2).2.2.2.1
          R2
          (boxBoxPrelude side1 R1 T1 side2 R2 T2).2.2.2.2.1
          (boxBoxPrelude side1 R1 T1 side2 R2 T2).2.2.2.2.2
          ((boxBoxPrelude side1 R1 T1 side2 R2 T2).2.2.2.2.2.addScalar fudge2))
        = .ok st)
    (hcode : st.code = 13) :
    (boxBox2 side1 R1 T1 side2 R2 T2 mc).ret = 1
    ∧ (boxBox2 side1 R1 T1 side2 R2 T2 mc).return_code = 13 := by
  simp only [boxBox2]
  rw [hrun]
  norm_num [hcode]

/-- The empty scan returns the current state. -/
lemma runSteps_nil (st : AxisState) : runSteps st [] = .ok st := rfl

/-- C1 counterexample: two unit cubes, the second rotated by the rational
rotation `rotC1` and translated by `transC1`, have a strictly positive
projected separation along the 13th candidate axis (the first box's z edge
direction crossed with the second box's x edge direction, a unit vector
here), so the separating-axis criterion certifies them disjoint; yet
`boxBox2` misses the exit — the code only exits an edge-cross axis when
the separation computed from the `fudge2`-padded `Q` exceeds machine
epsilon, and the padding turns the true `+10^-6` separation into
`-10^-6` — and instead returns one contact with return code 13, and
`boxBoxIntersect` reports `true`. -/
theorem boxBox2_edge_axis_counterexample :
    0 < axis13Separation ⟨1,1,1⟩ Mat3.identity ⟨0,0,0⟩ ⟨1,1,1⟩ rotC1 transC1
    ∧ (boxBox2 ⟨1,1,1⟩ Mat3.identity ⟨0,0,0⟩ ⟨1,1,1⟩ rotC1 transC1 4).ret = 1
    ∧ (boxBox2 ⟨1,1,1⟩ Mat3.identity ⟨0,0,0⟩ ⟨1,1,1⟩ rotC1 transC1
        4).return_code = 13
    ∧ (boxBoxIntersect ⟨⟨1,1,1⟩⟩ (.at ⟨0,0,0⟩) ⟨⟨1,1,1⟩⟩
        ⟨rotC1, transC1⟩).ret = true := by
  have hpre : boxBoxPrelude ⟨1,1,1⟩ Mat3.identity ⟨0,0,0⟩ ⟨1,1,1⟩ rotC1 transC1
      = (⟨1400001/1250000, -(4200003/5000000), 0⟩,
         ⟨1400001/1250000, -(4200003/5000000), 0⟩,
         ⟨1/2, 1/2, 1/2⟩, ⟨1/2, 1/2, 1/2⟩,
         ⟨⟨3/5, -(12/25), 16/25⟩, ⟨4/5, 9/25, -(12/25)⟩, ⟨0, 4/5, 3/5⟩⟩,
         ⟨⟨3/5, 12/25, 16/25⟩, ⟨4/5, 9/25, 12/25⟩, ⟨0, 4/5, 3/5⟩⟩) := by
    unfold boxBoxPrelude
    norm_num [rotC1, transC1, Mat3.identity, Mat3.transposeTimesVec,
      Mat3.transposeTimesMat, Mat3.getColumn, Mat3.absMat, Vec3.dot,
      Vec3.smul, Vec3.sub_def, Vec3.nth, abs_of_nonneg, abs_of_nonpos]
  have hQf : (⟨⟨3/5, 12/25, 16/25⟩, ⟨4/5, 9/25, 12/25⟩,
        ⟨0, 4/5, 3/5⟩⟩ : Mat3 ℝ).addScalar fudge2
      = ⟨⟨600001/1000000, 480001/1000000, 640001/1000000⟩,
         ⟨800001/1000000, 360001/1000000, 480001/1000000⟩,
         ⟨1/1000000, 800001/1000000, 600001/1000000⟩⟩ := by
    norm_num [Mat3.addScalar, fudge2]
  have hlist : boxBox2Steps
      ⟨1400001/1250000, -(4200003/5000000), 0⟩
      ⟨1400001/1250000, -(4200003/5000000), 0⟩
      ⟨1/2, 1/2, 1/2⟩ ⟨1/2, 1/2, 1/2⟩
      rotC1
      ⟨⟨3/5, -(12/25), 16/25⟩, ⟨4/5, 9/25, -(12/25)⟩, ⟨0, 4/5, 3/5⟩⟩
      ⟨⟨3/5, 12/25, 16/25⟩, ⟨4/5, 9/25, 12/25⟩, ⟨0, 4/5, 3/5⟩⟩
      ⟨⟨600001/1000000, 480001/1000000, 640001/1000000⟩,
       ⟨800001/1000000, 360001/1000000, 480001/1000000⟩,
       ⟨1/1000000, 800001/1000000, 600001/1000000⟩⟩
      = [faceStepA (1400001/1250000) (-(299999/1250000)) 0 1,
         faceStepA (-(4200003/5000000)) (-(2399997/5000000)) 1 2,
         faceStepA 0 (-(6/5)) 2 3,
         faceStepB 0 (-(6/5)) 0 4,
         faceStepB (-(4200003/5000000)) (-(2399997/5000000)) 1 5,
         faceStepB (1400001/1250000) (-(299999/1250000)) 2 6,
         edgeStep 0 (-(480001/500000)) ⟨0, 0, 4/5⟩ 7,
         edgeStep (4200003/6250000) (-(6600019/12500000)) ⟨0, -(4/5), 9/25⟩ 8,
         edgeStep (12600009/25000000) (-(14400041/25000000))
           ⟨0, -(3/5), -(12/25)⟩ 9,
         edgeStep 0 (-(360001/500000)) ⟨0, 0, -(3/5)⟩ 10,
         edgeStep (1400001/1562500) (-(4800017/12500000)) ⟨4/5, 0, 12/25⟩ 11,
         edgeStep (4200003/6250000) (-(6600019/12500000)) ⟨3/5, 0, -(16/25)⟩ 12,
         edgeStep (-(1400001/1000000)) (-(1/1000000)) ⟨-(4/5), 3/5, 0⟩ 13,
         edgeStep 0 (-(360001/500000)) ⟨-(9/25), -(12/25), 0⟩ 14,
         edgeStep 0 (-(480001/500000)) ⟨12/25, 16/25, 0⟩ 15] := by
    unfold boxBox2Steps
    norm_num [rotC1, Mat3.entry, Mat3.row, Mat3.dotX, Mat3.dotY, Mat3.dotZ,
      Mat3.transposeDotX, Mat3.transposeDotY, Mat3.transposeDotZ,
      Mat3.getColumn, Vec3.dot, Vec3.nth, abs_of_nonneg, abs_of_nonpos]
  have h1 : faceStepA (1400001/1250000) (-(299999/1250000)) 0 1
      ⟨-FCL_REAL_MAX, -1, false, 0, Vec3.zero⟩
      = .ok ⟨-(299999/1250000), 0, decide ((1400001/1250000:ℝ) < 0), 1,
          Vec3.zero⟩ :=
    faceStepA_update (by norm_num) (by norm_num [FCL_REAL_MAX])
  have h2 : faceStepA (-(4200003/5000000)) (-(2399997/5000000)) 1 2
      ⟨-(299999/1250000), 0, decide ((1400001/1250000:ℝ) < 0), 1, Vec3.zero⟩
      = .ok ⟨-(299999/1250000), 0, decide ((1400001/1250000:ℝ) < 0), 1,
          Vec3.zero⟩ :=
    faceStepA_keep (by norm_num) (by norm_num)
  have h3 : faceStepA 0 (-(6/5)) 2 3
      ⟨-(299999/1250000), 0, decide ((1400001/1250000:ℝ) < 0), 1, Vec3.zero⟩
      = .ok ⟨-(299999/1250000), 0, decide ((1400001/1250000:ℝ) < 0), 1,
          Vec3.zero⟩ :=
    faceStepA_keep (by norm_num) (by norm_num)
  have h4 : faceStepB 0 (-(6/5)) 0 4
      ⟨-(299999/1250000), 0, decide ((1400001/1250000:ℝ) < 0), 1, Vec3.zero⟩
      = .ok ⟨-(299999/1250000), 0, decide ((1400001/1250000:ℝ) < 0), 1,
          Vec3.zero⟩ :=
    faceStepB_keep (by norm_num) (by norm_num)
  have h5 : faceStepB (-(4200003/5000000)) (-(2399997/5000000)) 1 5
      ⟨-(299999/1250000), 0, decide ((1400001/1250000:ℝ) < 0), 1, Vec3.zero⟩
      = .ok ⟨-(299999/1250000), 0, decide ((1400001/1250000:ℝ) < 0), 1,
          Vec3.zero⟩ :=
    faceStepB_keep (by norm_num) (by norm_num)
  have h6 : faceStepB (1400001/1250000) (-(299999/1250000)) 2 6
      ⟨-(299999/1250000), 0, decide ((1400001/1250000:ℝ) < 0), 1, Vec3.zero⟩
      = .ok ⟨-(299999/1250000), 0, decide ((1400001/1250000:ℝ) < 0), 1,
          Vec3.zero⟩ :=
    faceStepB_keep (by norm_num) (by norm_num)
  have h7 : edgeStep 0 (-(480001/500000)) ⟨0, 0, 4/5⟩ 7
      ⟨-(299999/1250000), 0, decide ((1400001/1250000:ℝ) < 0), 1, Vec3.zero⟩
      = .ok ⟨-(299999/1250000), 0, decide ((1400001/1250000:ℝ) < 0), 1,
          Vec3.zero⟩ :=
    edgeStep_skip (16/25) (by norm_num [Vec3.dot]) (by norm_num) (by norm_num)
      (by norm_num) (by norm_num [fudge_factor])
  have h8 : edgeStep (4200003/6250000) (-(6600019/12500000)) ⟨0, -(4/5), 9/25⟩ 8
      ⟨-(299999/1250000), 0, decide ((1400001/1250000:ℝ) < 0), 1, Vec3.zero⟩
      = .ok ⟨-(299999/1250000), 0, decide ((1400001/1250000:ℝ) < 0), 1,
          Vec3.zero⟩ :=
    edgeStep_skip (481/625) (by norm_num [Vec3.dot]) (by norm_num) (by norm_num)
      (by norm_num) (by norm_num [fudge_factor])
  have h9 : edgeStep (12600009/25000000) (-(14400041/25000000))
      ⟨0, -(3/5), -(12/25)⟩ 9
      ⟨-(299999/1250000), 0, decide ((1400001/1250000:ℝ) < 0), 1, Vec3.zero⟩
      = .ok ⟨-(299999/1250000), 0, decide ((1400001/1250000:ℝ) < 0), 1,
          Vec3.zero⟩ :=
    edgeStep_skip (369/625) (by norm_num [Vec3.dot]) (by norm_num) (by norm_num)
      (by norm_num) (by norm_num [fudge_factor])
  have h10 : edgeStep 0 (-(360001/500000)) ⟨0, 0, -(3/5)⟩ 10
      ⟨-(299999/1250000), 0, decide ((1400001/1250000:ℝ) < 0), 1, Vec3.zero⟩
      = .ok ⟨-(299999/1250000), 0, decide ((1400001/1250000:ℝ) < 0), 1,
          Vec3.zero⟩ :=
    edgeStep_skip (9/25) (by norm_num [Vec3.dot]) (by norm_num) (by norm_num)
      (by norm_num) (by norm_num [fudge_factor])
  have h11 : edgeStep (1400001/1562500) (-(4800017/12500000)) ⟨4/5, 0, 12/25⟩ 11
      ⟨-(299999/1250000), 0, decide ((1400001/1250000:ℝ) < 0), 1, Vec3.zero⟩
      = .ok ⟨-(299999/1250000), 0, decide ((1400001/1250000:ℝ) < 0), 1,
          Vec3.zero⟩ :=
    edgeStep_skip (544/625) (by norm_num [Vec3.dot]) (by norm_num) (by norm_num)
      (by norm_num) (by norm_num [fudge_factor])
  have h12 : edgeStep (4200003/6250000) (-(6600019/12500000)) ⟨3/5, 0, -(16/25)⟩ 12
      ⟨-(299999/1250000), 0, decide ((1400001/1250000:ℝ) < 0), 1, Vec3.zero⟩
      = .ok ⟨-(299999/1250000), 0, decide ((1400001/1250000:ℝ) < 0), 1,
          Vec3.zero⟩ :=
    edgeStep_skip (481/625) (by norm_num [Vec3.dot]) (by norm_num) (by norm_num)
      (by norm_num) (by norm_num [fudge_factor])
  have h13 : edgeStep (-(1400001/1000000)) (-(1/1000000)) ⟨-(4/5), 3/5, 0⟩ 13
      ⟨-(299999/1250000), 0, decide ((1400001/1250000:ℝ) < 0), 1, Vec3.zero⟩
      = .ok ⟨-(1/1000000), 0, decide ((-(1400001/1000000):ℝ) < 0), 13,
          Vec3.divS ⟨-(4/5), 3/5, 0⟩ 1⟩ := by
    rw [@edgeStep_update (-(1400001/1000000)) (-(1/1000000)) ⟨-(4/5), 3/5, 0⟩ 13
      ⟨-(299999/1250000), 0, decide ((1400001/1250000:ℝ) < 0), 1, Vec3.zero⟩
      (by norm_num [DBL_EPSILON])
      (by rw [lenAxis13]; nlinarith [DBL_EPSILON_small])
      (by rw [lenAxis13]; norm_num [fudge_factor])]
    rw [lenAxis13]
    norm_num
  have h14 : edgeStep 0 (-(360001/500000)) ⟨-(9/25), -(12/25), 0⟩ 14
      ⟨-(1/1000000), 0, decide ((-(1400001/1000000):ℝ) < 0), 13,
        Vec3.divS ⟨-(4/5), 3/5, 0⟩ 1⟩
      = .ok ⟨-(1/1000000), 0, decide ((-(1400001/1000000):ℝ) < 0), 13,
          Vec3.divS ⟨-(4/5), 3/5, 0⟩ 1⟩ :=
    edgeStep_skip (9/25) (by norm_num [Vec3.dot]) (by norm_num) (by norm_num)
      (by norm_num) (by norm_num [fudge_factor])
  have h15 : edgeStep 0 (-(480001/500000)) ⟨12/25, 16/25, 0⟩ 15
      ⟨-(1/1000000), 0, decide ((-(1400001/1000000):ℝ) < 0), 13,
        Vec3.divS ⟨-(4/5), 3/5, 0⟩ 1⟩
      = .ok ⟨-(1/1000000), 0, decide ((-(1400001/1000000):ℝ) < 0), 13,
          Vec3.divS ⟨-(4/5), 3/5, 0⟩ 1⟩ :=
    edgeStep_skip (16/25) (by norm_num [Vec3.dot]) (by norm_num) (by norm_num)
      (by norm_num) (by norm_num [fudge_factor])
  have hscan : runSteps ⟨-FCL_REAL_MAX, -1, false, 0, Vec3.zero⟩
      [faceStepA (1400001/1250000) (-(299999/1250000)) 0 1,
       faceStepA (-(4200003/5000000)) (-(2399997/5000000)) 1 2,
       faceStepA 0 (-(6/5)) 2 3,
       faceStepB 0 (-(6/5)) 0 4,
       faceStepB (-(4200003/5000000)) (-(2399997/5000000)) 1 5,
       faceStepB (1400001/1250000) (-(299999/1250000)) 2 6,
       edgeStep 0 (-(480001/500000)) ⟨0, 0, 4/5⟩ 7,
       edgeStep (4200003/6250000) (-(6600019/12500000)) ⟨0, -(4/5), 9/25⟩ 8,
       edgeStep (12600009/25000000) (-(14400041/25000000))
         ⟨0, -(3/5), -(12/25)⟩ 9,
       edgeStep 0 (-(360001/500000)) ⟨0, 0, -(3/5)⟩ 10,
       edgeStep (1400001/1562500) (-(4800017/12500000)) ⟨4/5, 0, 12/25⟩ 11,
       edgeStep (4200003/6250000) (-(6600019/12500000)) ⟨3/5, 0, -(16/25)⟩ 12,
       edgeStep (-(1400001/1000000)) (-(1/1000000)) ⟨-(4/5), 3/5, 0⟩ 13,
       edgeStep 0 (-(360001/500000)) ⟨-(9/25), -(12/25), 0⟩ 14,
       edgeStep 0 (-(480001/500000)) ⟨12/25, 16/25, 0⟩ 15]
      = .ok ⟨-(1/1000000), 0, decide ((-(1400001/1000000):ℝ) < 0), 13,
          Vec3.divS ⟨-(4/5), 3/5, 0⟩ 1⟩ := by
    rw [runSteps_cons h1, runSteps_cons h2, runSteps_cons h3, runSteps_cons h4,
        runSteps_cons h5, runSteps_cons h6, runSteps_cons h7, runSteps_cons h8,
        runSteps_cons h9, runSteps_cons h10, runSteps_cons h11,
        runSteps_cons h12, runSteps_cons h13, runSteps_cons h14,
        runSteps_cons h15, runSteps_nil]
  have hrun : runSteps initAxisState
      (boxBox2Steps
        (boxBoxPrelude ⟨1,1,1⟩ Mat3.identity ⟨0,0,0⟩ ⟨1,1,1⟩ rotC1 transC1).1
        (boxBoxPrelude ⟨1,1,1⟩ Mat3.identity ⟨0,0,0⟩ ⟨1,1,1⟩ rotC1 transC1).2.1
        (boxBoxPrelude ⟨1,1,1⟩ Mat3.identity ⟨0,0,0⟩ ⟨1,1,1⟩ rotC1
          transC1).2.2.1
        (boxBoxPrelude ⟨1,1,1⟩ Mat3.identity ⟨0,0,0⟩ ⟨1,1,1⟩ rotC1
          transC1).2.2.2.1
        rotC1
        (boxBoxPrelude ⟨1,1,1⟩ Mat3.identity ⟨0,0,0⟩ ⟨1,1,1⟩ rotC1
          transC1).2.2.2.2.1
        (boxBoxPrelude ⟨1,1,1⟩ Mat3.identity ⟨0,0,0⟩ ⟨1,1,1⟩ rotC1
          transC1).2.2.2.2.2
        ((boxBoxPrelude ⟨1,1,1⟩ Mat3.identity ⟨0,0,0⟩ ⟨1,1,1⟩ rotC1
          transC1).2.2.2.2.2.addScalar fudge2))
      = .ok ⟨-(1/1000000), 0, decide ((-(1400001/1000000):ℝ) < 0), 13,
          Vec3.divS ⟨-(4/5), 3/5, 0⟩ 1⟩ := by
    simp only [hpre, hQf, hlist, initAxisState]
    exact hscan
  have hcore := boxBox2_code13_result ⟨1,1,1⟩ Mat3.identity ⟨0,0,0⟩ ⟨1,1,1⟩
    rotC1 transC1 4
    ⟨-(1/1000000), 0, decide ((-(1400001/1000000):ℝ) < 0), 13,
      Vec3.divS ⟨-(4/5), 3/5, 0⟩ 1⟩ hrun rfl
  have hsep : 0 < axis13Separation ⟨1,1,1⟩ Mat3.identity ⟨0,0,0⟩ ⟨1,1,1⟩
      rotC1 transC1 := by
    simp only [axis13Separation, hpre]
    norm_num [Mat3.entry, Mat3.row, Vec3.nth, abs_of_nonpos]
  have hbi : (boxBoxIntersect ⟨⟨1,1,1⟩⟩ (.at ⟨0,0,0⟩) ⟨⟨1,1,1⟩⟩
      ⟨rotC1, transC1⟩).ret = true := by
    simp only [boxBoxIntersect, SimpleTransform.at, SimpleTransform.getRotation,
      SimpleTransform.getTranslation]
    rw [decide_eq_true_eq]
    rw [hcore.2]
    norm_num
  exact ⟨hsep, hcore.1, hcore.2, hbi⟩

end NarrowPhase

namespace CCD

/-- The first component of `minFold` is the plain running minimum of the
reported times. -/
lemma minFold_fst (l : List (Option (ℚ × Vec3 ℚ))) :
    ∀ acc : ℚ × Vec3 ℚ,
      (l.foldl
        (fun acc r =>
          match r with
          | none => acc
          | some (t, pos) => if acc.1 > t then (t, pos) else acc) acc).1
        = (reportedTimes l).foldl min acc.1 := by
  induction l with
  | nil => intro acc; rfl
  | cons r l ih =>
      intro acc
      match r with
      | none =>
          rw [show reportedTimes (none :: l) = reportedTimes l from by
                simp [reportedTimes]]
          exact ih acc
      | some (t, pos) =>
          rw [show reportedTimes (some (t, pos) :: l) = t :: reportedTimes l from by
                simp [reportedTimes]]
          simp only [List.foldl_cons]
          rcases le_or_lt acc.1 t with h | h
          · rw [if_neg (not_lt.2 h)]
            rw [ih acc, min_eq_left h]
          · rw [if_pos h]
            rw [ih (t, pos), min_eq_right (le_of_lt h)]

/-- The running minimum never exceeds its initial value. -/
lemma foldl_min_le_init (l : List ℚ) : ∀ a : ℚ, l.foldl min a ≤ a := by
  induction l with
  | nil => intro a; exact le_refl a
  | cons x l ih =>
      intro a
      calc (x :: l).foldl min a = l.foldl min (min a x) := rfl
        _ ≤ min a x := ih _
        _ ≤ a := min_le_left _ _

/-- The running minimum is at most every list element. -/
lemma foldl_min_le_mem (l : List ℚ) :
    ∀ (a x : ℚ), x ∈ l → l.foldl min a ≤ x := by
  induction l with
  | nil => intro a x hx; cases hx
  | cons y l ih =>
      intro a x hx
      rcases List.mem_cons.1 hx with rfl | hx
      · calc (x :: l).foldl min a = l.foldl min (min a x) := rfl
          _ ≤ min a x := foldl_min_le_init l _
          _ ≤ x := min_le_right _ _
      · exact ih _ x hx

/-- The running minimum is the initial value or an element of the list. -/
lemma foldl_min_eq_init_or_mem (l : List ℚ) :
    ∀ a : ℚ, l.foldl min a = a ∨ l.foldl min a ∈ l := by
  induction l with
  | nil => intro a; exact Or.inl rfl
  | cons x l ih =>
      intro a
      rcases ih (min a x) with h | h
      · rcases le_total a x with hax | hax
        · left
          simp only [List.foldl_cons]
          rw [h, min_eq_left hax]
        · right
          have hval : (x :: l).foldl min a = x := by
            simp only [List.foldl_cons]
            rw [h, min_eq_right hax]
          rw [hval]
          exact List.mem_cons_self _ _
      · exact Or.inr (List.mem_cons_of_mem _ h)

/-- Folding `min` commutes out of the seed. -/
lemma foldr_min_min (l : List ℚ) :
    ∀ a b : ℚ, l.foldr min (min a b) = min (l.foldr min a) b := by
  induction l with
  | nil => intro a b; rfl
  | cons x l ih =>
      intro a b
      simp only [List.foldr_cons, ih a b, min_assoc]

/-- `minFold` in terms of the reported times. -/
lemma minFold_eq (l : List (Option (ℚ × Vec3 ℚ))) :
    (minFold l).1 = (reportedTimes l).foldl min 2 :=
  minFold_fst l (2, Vec3.zero)

/-- Counter bumping does not touch the sub-test inputs. -/
lemma leafSubTestResults_bump (vf ee : SubTestOracle) (node : MeshCCDNode)
    (pid1 pid2 : ℕ) :
    leafSubTestResults vf ee (bumpCounters node) pid1 pid2
      = leafSubTestResults vf ee node pid1 pid2 := by
  unfold bumpCounters
  split <;> rfl

/-- Counter bumping does not touch the recorded pairs. -/
lemma bumpCounters_pairs (node : MeshCCDNode) :
    (bumpCounters node).pairs = node.pairs := by
  unfold bumpCounters
  split <;> rfl

/-- Counter bumping does not touch the time of contact. -/
lemma bumpCounters_toc (node : MeshCCDNode) :
    (bumpCounters node).time_of_contact = node.time_of_contact := by
  unfold bumpCounters
  split <;> rfl

/-- C8: (a) a fresh traversal node starts with `time_of_contact = 1`;
(b) when none of the 15 sub-tests reports a collision, `leafTesting` appends
no pair and leaves `time_of_contact` unchanged (in particular a fresh node
keeps the sentinel 1); (c) when some sub-test reports, all reported times
lying in `[0,1]`, the recorded pair's time is the minimum over all reporting
sub-tests and `time_of_contact` drops to the minimum of its old value and
that time; (d) the invariant "`time_of_contact` is the minimum of 1 and all
recorded pair times" is preserved. -/
theorem leafTesting_spec (vf ee : SubTestOracle) (node : MeshCCDNode)
    (pid1 pid2 : ℕ)
    (hbound : ∀ t ∈ reportedTimes (leafSubTestResults vf ee node pid1 pid2),
        0 ≤ t ∧ t ≤ 1) :
    (∀ vs1 vs2 t1 t2 pv1 pv2 stats maxc,
        (MeshCCDNode.init vs1 vs2 t1 t2 pv1 pv2 stats maxc).time_of_contact = 1)
    ∧ (reportedTimes (leafSubTestResults vf ee node pid1 pid2) = [] →
        (leafTesting vf ee node pid1 pid2).pairs = node.pairs
        ∧ (leafTesting vf ee node pid1 pid2).time_of_contact
            = node.time_of_contact)
    ∧ (reportedTimes (leafSubTestResults vf ee node pid1 pid2) ≠ [] →
        (leafTesting vf ee node pid1 pid2).pairs
          = node.pairs ++ [⟨pid1, pid2,
              (reportedTimes (leafSubTestResults vf ee node pid1 pid2)).foldl min 2⟩]
        ∧ (reportedTimes (leafSubTestResults vf ee node pid1 pid2)).foldl min 2
            ∈ reportedTimes (leafSubTestResults vf ee node pid1 pid2)
        ∧ (∀ t ∈ reportedTimes (leafSubTestResults vf ee node pid1 pid2),
            (reportedTimes (leafSubTestResults vf ee node pid1 pid2)).foldl min 2 ≤ t)
        ∧ (leafTesting vf ee node pid1 pid2).time_of_contact
            = min node.time_of_contact
                ((reportedTimes (leafSubTestResults vf ee node pid1 pid2)).foldl min 2))
    ∧ (node.time_of_contact
          = (node.pairs.map (fun p => p.collision_time)).foldr min 1 →
        (leafTesting vf ee node pid1 pid2).time_of_contact
          = ((leafTesting vf ee node pid1 pid2).pairs.map
              (fun p => p.collision_time)).foldr min 1) := by
  have hsub := leafSubTestResults_bump vf ee node pid1 pid2
  have hct : (minFold (leafSubTestResults vf ee (bumpCounters node) pid1 pid2)).1
      = (reportedTimes (leafSubTestResults vf ee node pid1 pid2)).foldl min 2 := by
    rw [hsub, minFold_eq]
  by_cases hempty : reportedTimes (leafSubTestResults vf ee node pid1 pid2) = []
  · have hct2 : (minFold (leafSubTestResults vf ee (bumpCounters node) pid1 pid2)).1
        = 2 := by rw [hct, hempty]; rfl
    have hres : leafTesting vf ee node pid1 pid2 = bumpCounters node := by
      simp only [leafTesting, hct2]
      norm_num
    refine ⟨fun _ _ _ _ _ _ _ _ => rfl,
            fun _ => ⟨by rw [hres, bumpCounters_pairs],
                      by rw [hres, bumpCounters_toc]⟩,
            fun hne => absurd hempty hne,
            fun hinv => ?_⟩
    rw [hres, bumpCounters_toc, bumpCounters_pairs]
    exact hinv
  · obtain ⟨t0, ht0⟩ := List.exists_mem_of_ne_nil _ hempty
    have htmin_le : ∀ t ∈ reportedTimes (leafSubTestResults vf ee node pid1 pid2),
        (reportedTimes (leafSubTestResults vf ee node pid1 pid2)).foldl min 2 ≤ t :=
      fun t ht => foldl_min_le_mem _ 2 t ht
    have htmin_le1 :
        (reportedTimes (leafSubTestResults vf ee node pid1 pid2)).foldl min 2 ≤ 1 :=
      le_trans (htmin_le t0 ht0) (hbound t0 ht0).2
    have htmin_mem :
        (reportedTimes (leafSubTestResults vf ee node pid1 pid2)).foldl min 2
          ∈ reportedTimes (leafSubTestResults vf ee node pid1 pid2) := by
      rcases foldl_min_eq_init_or_mem
          (reportedTimes (leafSubTestResults vf ee node pid1 pid2)) 2 with h | h
      · exfalso
        rw [h] at htmin_le1
        norm_num at htmin_le1
      · exact h
    have hres : leafTesting vf ee node pid1 pid2
        = { bumpCounters node with
            pairs := (bumpCounters node).pairs
              ++ [⟨pid1, pid2,
                  (reportedTimes (leafSubTestResults vf ee node pid1 pid2)).foldl min 2⟩]
            time_of_contact := min (bumpCounters node).time_of_contact
              ((reportedTimes (leafSubTestResults vf ee node pid1 pid2)).foldl min 2) } := by
      simp only [leafTesting, hct]
      rw [if_pos (by simpa using htmin_le1)]
    refine ⟨fun _ _ _ _ _ _ _ _ => rfl,
            fun he => absurd he hempty,
            fun _ => ⟨?_, htmin_mem, htmin_le, ?_⟩,
            fun hinv => ?_⟩
    · rw [hres]
      simp [bumpCounters_pairs]
    · rw [hres]
      simp [bumpCounters_toc]
    · rw [hres]
      simp only [bumpCounters_pairs, bumpCounters_toc, List.map_append,
        List.map_cons, List.map_nil, List.foldr_append, List.foldr_cons,
        List.foldr_nil]
      rw [hinv]
      rw [show min ((reportedTimes (leafSubTestResults vf ee node pid1 pid2)).foldl
            min 2) 1
          = min 1 ((reportedTimes (leafSubTestResults vf ee node pid1 pid2)).foldl
            min 2) from min_comm _ _]
      rw [foldr_min_min (node.pairs.map (fun p => p.collision_time)) 1
          ((reportedTimes (leafSubTestResults vf ee node pid1 pid2)).foldl min 2)]

/-- Witness for C8: with vertex-face oracles reporting no collision and
edge-edge oracles reporting time `1/2`, a fresh node records exactly one
pair with time `1/2` and the time of contact drops from the sentinel 1 to
`1/2`. -/
theorem leafTesting_spec_witness :
    (∀ t ∈ reportedTimes (leafSubTestResults
        (fun _ _ _ _ _ _ _ _ => none)
        (fun _ _ _ _ _ _ _ _ => some (1/2, Vec3.zero))
        (MeshCCDNode.init [] [] [] [] [] [] false 1) 0 0), 0 ≤ t ∧ t ≤ 1)
    ∧ (leafTesting (fun _ _ _ _ _ _ _ _ => none)
        (fun _ _ _ _ _ _ _ _ => some (1/2, Vec3.zero))
        (MeshCCDNode.init [] [] [] [] [] [] false 1) 0 0).pairs
        = [⟨0, 0, 1/2⟩]
    ∧ (leafTesting (fun _ _ _ _ _ _ _ _ => none)
        (fun _ _ _ _ _ _ _ _ => some (1/2, Vec3.zero))
        (MeshCCDNode.init [] [] [] [] [] [] false 1) 0 0).time_of_contact
        = 1/2 := by
  have htimes : reportedTimes (leafSubTestResults
      (fun _ _ _ _ _ _ _ _ => none)
      (fun _ _ _ _ _ _ _ _ => (some (1/2, Vec3.zero) : Option (ℚ × Vec3 ℚ)))
      (MeshCCDNode.init [] [] [] [] [] [] false 1) 0 0)
      = [1/2, 1/2, 1/2, 1/2, 1/2, 1/2, 1/2, 1/2, 1/2] := by
    simp [reportedTimes, leafSubTestResults]
  have hbound : ∀ t ∈ reportedTimes (leafSubTestResults
      (fun _ _ _ _ _ _ _ _ => none)
      (fun _ _ _ _ _ _ _ _ => (some (1/2, Vec3.zero) : Option (ℚ × Vec3 ℚ)))
      (MeshCCDNode.init [] [] [] [] [] [] false 1) 0 0), 0 ≤ t ∧ t ≤ 1 := by
    rw [htimes]
    intro t ht
    simp at ht
    rw [ht]
    norm_num
  have hmain := leafTesting_spec
      (fun _ _ _ _ _ _ _ _ => none)
      (fun _ _ _ _ _ _ _ _ => some (1/2, Vec3.zero))
      (MeshCCDNode.init [] [] [] [] [] [] false 1) 0 0 hbound
  have hne : reportedTimes (leafSubTestResults
      (fun _ _ _ _ _ _ _ _ => none)
      (fun _ _ _ _ _ _ _ _ => (some (1/2, Vec3.zero) : Option (ℚ × Vec3 ℚ)))
      (MeshCCDNode.init [] [] [] [] [] [] false 1) 0 0) ≠ [] := by
    rw [htimes]
    simp
  obtain ⟨hpairs, _, _, htoc⟩ := hmain.2.2.1 hne
  have hfold : ((reportedTimes (leafSubTestResults
      (fun _ _ _ _ _ _ _ _ => none)
      (fun _ _ _ _ _ _ _ _ => (some (1/2, Vec3.zero) : Option (ℚ × Vec3 ℚ)))
      (MeshCCDNode.init [] [] [] [] [] [] false 1) 0 0)).foldl min 2 : ℚ)
      = 1/2 := by
    rw [htimes]
    norm_num [List.foldl, min_def]
  refine ⟨hbound, ?_, ?_⟩
  · rw [hpairs, hfold]
    rfl
  · rw [htoc, hfold]
    norm_num [MeshCCDNode.init, min_def]

end CCD

end FCL
